import Mathlib

/-!
# cluster-curator: hook runner, job monitor and import monitor

A shallow embedding of `pkg/jobs/ansible/job.go` and
`pkg/jobs/importer/managedcluster.go`.

* Kubernetes objects handled through `unstructured.Unstructured` are JSON
  trees (`Value`); a Go `map[string]interface{}` is an association list, where
  indexing a missing key gives the nil interface (`Value.null`), as in Go.
* Every unchecked type assertion `x.(T)` of the source panics when `x` does
  not hold a `T`; a panic is an outcome of its own (`Res.panic`).
* `json.Unmarshal` of the literal `null` returns a nil error and leaves the
  target map nil; an interface that holds this nil map is not the nil
  interface (`Value.nilMap`): it reads like the empty map, and an assignment
  to one of its entries panics.
* The API client is a record of state transformers over an arbitrary world
  `σ`; every call the program issues is appended to a log, so that "no job
  was created" is a statement about the log.
* The two polling `for` loops of the source have no bound; they are run with fuel,
  and `Res.outOfFuel` is the outcome of a loop that was still polling.
-/

namespace Curator

/-! ## Values -/

/-- Go `error` values, identified with their message. -/
abbrev Error := String

/-- The dynamic content of an `interface{}` decoded from JSON. -/
inductive Value where
  | null
  | bool (b : Bool)
  | num (n : Int)
  | str (s : String)
  | arr (items : List Value)
  | obj (fields : List (String × Value))
  | nilMap

/-- The entries of a Go `map[string]interface{}`; a nil map has none. -/
abbrev Obj := List (String × Value)

/-- Go `m[k]`: the nil interface when the key is missing. -/
def index (m : Obj) (k : String) : Value :=
  match m.lookup k with
  | some v => v
  | none => Value.null

/-- Go `m[k] = v`. -/
def mapSet : Obj → String → Value → Obj
  | [], k, v => [(k, v)]
  | (k', v') :: rest, k, v =>
    if k' = k then (k, v) :: rest else (k', v') :: mapSet rest k v

/-- Go `x == nil` on an interface value. -/
def isNil : Value → Bool
  | Value.null => true
  | _ => false

/-- Go `x.(map[string]interface{})`, for reading; `none` is the panic of a
failed assertion. The assertion succeeds on an interface that holds the nil
map, which reads like the empty one. -/
def asMap : Value → Option Obj
  | Value.obj m => some m
  | Value.nilMap => some []
  | _ => none

/-- Go `x.([]interface{})`. -/
def asList : Value → Option (List Value)
  | Value.arr xs => some xs
  | _ => none

/-- Go `x.(string)`. -/
def asString : Value → Option String
  | Value.str s => some s
  | _ => none

/-- Go `x == "lit"` for an interface `x`: true only for a string of that content. -/
def eqStr : Value → String → Bool
  | Value.str s, lit => s == lit
  | _, _ => false

/-- The message of the runtime panic raised by a failed type assertion. -/
def interfaceConversion : Error := "interface conversion"

/-- The message of the runtime panic raised by a write to a nil map. -/
def nilMapAssignment : Error := "assignment to entry in nil map"

/-- Method `GetName` of `unstructured.Unstructured`: `metadata.name` when it is
a string, the empty string otherwise. -/
def GetName (o : Obj) : String :=
  match asMap (index o "metadata") with
  | some md =>
    match asString (index md "name") with
    | some n => n
    | none => ""
  | none => ""

/-- Method `GetNamespace` of `unstructured.Unstructured`. -/
def GetNamespace (o : Obj) : String :=
  match asMap (index o "metadata") with
  | some md =>
    match asString (index md "namespace") with
    | some n => n
    | none => ""
  | none => ""

/-! ## The curator resource (types of `pkg/api/v1beta1`, as used by the source) -/

structure RawExtension where
  Raw : String
  deriving DecidableEq

structure Hook where
  Name : String
  ExtraVars : Option RawExtension
  deriving DecidableEq

structure Hooks where
  TowerAuthSecret : String
  Prehook : List Hook
  Posthook : List Hook

structure UpgradeHooks where
  DesiredUpdate : String
  TowerAuthSecret : String
  Prehook : List Hook
  Posthook : List Hook

structure ClusterCuratorSpec where
  DesiredCuration : String
  Install : Hooks
  Scale : Hooks
  Destroy : Hooks
  Upgrade : UpgradeHooks

structure Operation where
  RetryPosthook : String

structure ClusterCurator where
  Name : String
  Namespace : String
  Operation : Option Operation
  Spec : ClusterCuratorSpec

/-- Type `metav1.ConditionStatus`. -/
inductive ConditionStatus where
  | True
  | False
  | Unknown
  deriving DecidableEq, Repr

/-! ## Outcomes, log and clients -/

/-- How a call ends: it returns, it panics, or its loop was still polling when
the fuel ran out. -/
inductive Res (α : Type) where
  | ret (a : α)
  | panic (e : Error)
  | outOfFuel

/-- The resource kinds read through `client.Get`. -/
inductive Kind where
  | ClusterDeployment
  | MachinePool
  | AnsibleJob
  deriving DecidableEq, Repr

/-- The externally visible calls of a run, in the order they are issued. -/
inductive Event where
  | get (kind : Kind) (ns name : String)
  | create (obj : Obj)
  | record (clusterName conditionType : String) (status : ConditionStatus) (message : String)
  | getManagedCluster (name : String)
  | sleep (seconds : Nat)

def Event.isGet : Event → Bool
  | Event.get _ _ _ => true
  | _ => false

def Event.isSleep : Event → Bool
  | Event.sleep _ => true
  | _ => false

/-- The status written by a record of condition type `t`, if the event is one. -/
def Event.recorded (t : String) : Event → Option ConditionStatus
  | Event.record _ ty st _ => if ty = t then some st else none
  | _ => none

/-- The world and the log of calls issued so far. -/
structure State (σ : Type) where
  world : σ
  log : List Event

/-- The collaborators of `pkg/jobs/ansible`: the controller-runtime client,
`utils.RecordCurrentStatusCondition` (its file is not part of the sources at
hand, so it is a parameter), `json.Unmarshal` into an empty map (`ok none` is
the nil error that leaves the map nil, as for the literal `null`) and
`runtime.DefaultUnstructuredConverter.ToUnstructured`. -/
structure Client (σ : Type) where
  Get : σ → Kind → String → String → Except Error Obj × σ
  Create : σ → Obj → Except Error Obj × σ
  RecordCurrentStatusCondition : σ → String → String → ConditionStatus → String → Option Error × σ
  Unmarshal : String → Except Error (Option Obj)
  ToUnstructured : Obj → Except Error Obj

/-- Constants `utils.PauseFiveSeconds` and `utils.PauseTenSeconds`, in seconds. -/
def PauseFiveSeconds : Nat := 5
def PauseTenSeconds : Nat := 10

/-- Call `time.Sleep`. -/
def sleep {σ : Type} (seconds : Nat) (s : State σ) : State σ :=
  { s with log := s.log ++ [Event.sleep seconds] }

/-- Call `client.Get(ctx, NamespacedName(ns, name), &obj)`. -/
def clientGet {σ : Type} (c : Client σ) (kind : Kind) (ns name : String) (s : State σ) :
    Except Error Obj × State σ :=
  ((c.Get s.world kind ns name).1,
    { world := (c.Get s.world kind ns name).2, log := s.log ++ [Event.get kind ns name] })

/-- Call `client.Create(ctx, obj)`; on success the object is the stored one. -/
def clientCreate {σ : Type} (c : Client σ) (obj : Obj) (s : State σ) :
    Except Error Obj × State σ :=
  ((c.Create s.world obj).1,
    { world := (c.Create s.world obj).2, log := s.log ++ [Event.create obj] })

/-- Call `utils.RecordCurrentStatusCondition(client, clusterName, type, status, message)`. -/
def recordCurrentStatusCondition {σ : Type} (c : Client σ) (clusterName conditionType : String)
    (status : ConditionStatus) (message : String) (s : State σ) : Option Error × State σ :=
  ((c.RecordCurrentStatusCondition s.world clusterName conditionType status message).1,
    { world := (c.RecordCurrentStatusCondition s.world clusterName conditionType status message).2,
      log := s.log ++ [Event.record clusterName conditionType status message] })

/-- Modelled from the spec: `utils.CheckError` (pkg/jobs/utils/helpers.go is
missing) raises the single halting error of the design on a non-nil error and
does nothing on nil, as `TestCheckErrorNil` and `TestCheckErrorNotNil` assert. -/
def CheckError (err : Option Error) : Res Unit :=
  match err with
  | some e => Res.panic e
  | none => Res.ret ()

/-- Go `x.(map[string]interface{})[k] = v`: the entries of the map after the
assignment. The assertion panics when `x` holds no map, the assignment panics
when the map it holds is nil. -/
def assignEntry (x : Value) (k : String) (v : Value) : Res Obj :=
  match x with
  | Value.obj m => Res.ret (mapSet m k v)
  | Value.nilMap => Res.panic nilMapAssignment
  | _ => Res.panic interfaceConversion

/-! ## `pkg/jobs/ansible/job.go` -/

def PREHOOK : String := "prehook"
def POSTHOOK : String := "posthook"
def MPSUFFIX : String := "-worker"

/-- Function `getAnsibleJob`: the job description; it panics through
`utils.CheckError` when the hook's extraVars do not decode. Its `extra_vars`
hold the map `mapExtraVars`: empty when there are no extraVars, the decoded
object, or the nil map `json.Unmarshal` leaves for the literal `null`. -/
def getAnsibleJob {σ : Type} (c : Client σ) (jobtype ansibleJobTemplate secretRef : String)
    (extraVars : Option RawExtension) (ansibleJobName clusterName : String) : Res Obj :=
  let ansibleJob : Obj :=
    [("apiVersion", Value.str "tower.ansible.com/v1alpha1"),
     ("kind", Value.str "AnsibleJob"),
     ("metadata", Value.obj
       [("generateName", Value.str (jobtype ++ "job-")),
        ("name", Value.str ansibleJobName),
        ("namespace", Value.str clusterName),
        ("annotations", Value.obj [("jobtype", Value.str jobtype)])]),
     ("spec", Value.obj
       [("job_template_name", Value.str ansibleJobTemplate),
        ("tower_auth_secret", Value.str secretRef)])]
  let decoded : Option Error × Value :=
    match extraVars with
    | none => (none, Value.obj [])
    | some ev =>
      match c.Unmarshal ev.Raw with
      | Except.ok (some m) => (none, Value.obj m)
      | Except.ok none => (none, Value.nilMap)
      | Except.error err => (some err, Value.obj [])
  match CheckError decoded.1 with
  | Res.panic e => Res.panic e
  | Res.outOfFuel => Res.outOfFuel
  | Res.ret _ =>
    match assignEntry (index ansibleJob "spec") "extra_vars" decoded.2 with
    | Res.panic e => Res.panic e
    | Res.outOfFuel => Res.outOfFuel
    | Res.ret spec => Res.ret (mapSet ansibleJob "spec" (Value.obj spec))

/-- Function `getClusterDeployment`. -/
def getClusterDeployment {σ : Type} (c : Client σ) (clusterName : String) (s : State σ) :
    Except Error Obj × State σ :=
  match clientGet c Kind.ClusterDeployment clusterName clusterName s with
  | (Except.error err, s1) => (Except.error err, s1)
  | (Except.ok cd, s1) => (c.ToUnstructured cd, s1)

/-- Function `getMachinePool`. -/
def getMachinePool {σ : Type} (c : Client σ) (clusterName : String) (s : State σ) :
    Except Error Obj × State σ :=
  match clientGet c Kind.MachinePool clusterName (clusterName ++ MPSUFFIX) s with
  | (Except.error err, s1) => (Except.error err, s1)
  | (Except.ok mp, s1) => (c.ToUnstructured mp, s1)

/-- The statement
`ansibleJob.Object["spec"].(map...)["extra_vars"].(map...)[key] = v` of
`RunAnsibleJob`: `spec` is read, the assignment is made in the map its
`extra_vars` hold, and panics when that map is nil. -/
def setExtraVar (ansibleJob : Obj) (key : String) (v : Value) : Res Obj :=
  match asMap (index ansibleJob "spec") with
  | none => Res.panic interfaceConversion
  | some spec =>
    match assignEntry (index spec "extra_vars") key v with
    | Res.panic e => Res.panic e
    | Res.outOfFuel => Res.outOfFuel
    | Res.ret extraVars =>
      Res.ret (mapSet ansibleJob "spec"
        (Value.obj (mapSet spec "extra_vars" (Value.obj extraVars))))

/-- Function `RunAnsibleJob`: the created job, or the error (with a nil job). -/
def RunAnsibleJob {σ : Type} (c : Client σ) (curator : ClusterCurator) (jobtype : String)
    (hookToRun : Hook) (secretRef : String) (s : State σ) :
    Res (Except Error Obj) × State σ :=
  let ns := curator.Namespace
  match getAnsibleJob c jobtype hookToRun.Name secretRef hookToRun.ExtraVars "" ns with
  | Res.panic e => (Res.panic e, s)
  | Res.outOfFuel => (Res.outOfFuel, s)
  | Res.ret ansibleJob =>
    match getClusterDeployment c ns s with
    | (Except.error err, s1) => (Res.ret (Except.error err), s1)
    | (Except.ok cd, s1) =>
      match getMachinePool c ns s1 with
      | (Except.error err, s2) => (Res.ret (Except.error err), s2)
      | (Except.ok mp, s2) =>
        match setExtraVar ansibleJob "cluster_deployment" (index cd "spec") with
        | Res.panic e => (Res.panic e, s2)
        | Res.outOfFuel => (Res.outOfFuel, s2)
        | Res.ret job1 =>
          match setExtraVar job1 "machine_pool" (index mp "spec") with
          | Res.panic e => (Res.panic e, s2)
          | Res.outOfFuel => (Res.outOfFuel, s2)
          | Res.ret job2 =>
            match clientCreate c job2 s2 with
            | (Except.error err, s3) => (Res.ret (Except.error err), s3)
            | (Except.ok created, s3) => (Res.ret (Except.ok created), s3)

/-! ### `MonitorAnsibleJob` -/

/-- What one fetched job resource makes the monitoring loop do. -/
inductive Poll where
  | initializing
  | successful
  | error (err : Error)
  | running
  | panic (e : Error)

/-- The `klog` statement on `status.k8sJob`: its argument is evaluated, and
its two type assertions can panic (`false`). -/
def logK8sJob (jos : Obj) : Bool :=
  if isNil (index jos "k8sJob") then true
  else
    match asMap (index jos "k8sJob") with
    | none => false
    | some k =>
      match asString (index k "namespacedName") with
      | none => false
      | some _ => true

/-- The `for _, condition := range ...` scan of the loop body. -/
def scanConditions : List Value → Poll
  | [] => Poll.running
  | condition :: rest =>
    match asMap condition with
    | none => Poll.panic interfaceConversion
    | some m =>
      if eqStr (index m "reason") "Failed" then
        match asString (index m "message") with
        | none => Poll.panic interfaceConversion
        | some msg => Poll.error msg
      else scanConditions rest

/-- The loop body from the k8sJob log statement on: the log statement, then
the scan of `status.conditions`. -/
def inspectConditions (jos : Obj) : Poll :=
  if logK8sJob jos then
    match asList (index jos "conditions") with
    | none => Poll.panic interfaceConversion
    | some conditions => scanConditions conditions
  else Poll.panic interfaceConversion

/-- The loop body of `MonitorAnsibleJob` after a successful fetch, up to the
effect it asks for. -/
def inspectJob (ns ansibleJobName : String) (jobResource : Obj) : Poll :=
  if isNil (index jobResource "status") then Poll.initializing
  else
    match asMap (index jobResource "status") with
    | none => Poll.panic interfaceConversion
    | some jos =>
      if isNil (index jos "conditions") then Poll.initializing
      else if isNil (index jos "ansibleJobResult") then inspectConditions jos
      else
        match asMap (index jos "ansibleJobResult") with
        | none => Poll.panic interfaceConversion
        | some result =>
          if eqStr (index result "status") "successful" then Poll.successful
          else if eqStr (index result "status") "error" then
            Poll.error ("AnsibleJob " ++ ns ++ "/" ++ ansibleJobName ++ " exited with an error")
          else inspectConditions jos

/-- The `for` loop of `MonitorAnsibleJob`; one unit of fuel per poll. -/
def monitorLoop {σ : Type} (c : Client σ) (curator : ClusterCurator) (ns ansibleJobName : String) :
    Nat → State σ → Res (Option Error) × State σ
  | 0, s => (Res.outOfFuel, s)
  | fuel + 1, s =>
    match clientGet c Kind.AnsibleJob ns ansibleJobName s with
    | (Except.error err, s1) => (Res.ret (some err), s1)
    | (Except.ok jobResource, s1) =>
      match inspectJob ns ansibleJobName jobResource with
      | Poll.initializing => monitorLoop c curator ns ansibleJobName fuel (sleep PauseFiveSeconds s1)
      | Poll.running => monitorLoop c curator ns ansibleJobName fuel (sleep PauseFiveSeconds s1)
      | Poll.panic e => (Res.panic e, s1)
      | Poll.error err => (Res.ret (some err), s1)
      | Poll.successful =>
        match recordCurrentStatusCondition c curator.Namespace "current-ansiblejob"
            ConditionStatus.True (GetName jobResource) s1 with
        | (err, s2) =>
          match CheckError err with
          | Res.panic e => (Res.panic e, s2)
          | Res.outOfFuel => (Res.outOfFuel, s2)
          | Res.ret _ => (Res.ret none, s2)

/-- Function `MonitorAnsibleJob`; `none` is the nil error. -/
def MonitorAnsibleJob {σ : Type} (c : Client σ) (fuel : Nat) (jobResource : Obj)
    (curator : ClusterCurator) (s : State σ) : Res (Option Error) × State σ :=
  match recordCurrentStatusCondition c curator.Namespace "current-ansiblejob"
      ConditionStatus.False (GetName jobResource) s with
  | (err, s1) =>
    match CheckError err with
    | Res.panic e => (Res.panic e, s1)
    | Res.outOfFuel => (Res.outOfFuel, s1)
    | Res.ret _ =>
      monitorLoop c curator (GetNamespace jobResource) (GetName jobResource) fuel s1

/-! ### `Job` -/

/-- The `for _, ttn := range hooksToRun` loop of `Job`. -/
def runHooks {σ : Type} (c : Client σ) (fuel : Nat) (curator : ClusterCurator)
    (jobType towerauthsecret : String) : List Hook → State σ → Res (Option Error) × State σ
  | [], s => (Res.ret none, s)
  | ttn :: rest, s =>
    match RunAnsibleJob c curator jobType ttn towerauthsecret s with
    | (Res.panic e, s1) => (Res.panic e, s1)
    | (Res.outOfFuel, s1) => (Res.outOfFuel, s1)
    | (Res.ret (Except.error err), s1) => (Res.ret (some err), s1)
    | (Res.ret (Except.ok jobResource), s1) =>
      if GetName jobResource = "" then (Res.ret (some "Name was not generated"), s1)
      else
        match MonitorAnsibleJob c fuel jobResource curator s1 with
        | (Res.ret none, s2) => runHooks c fuel curator jobType towerauthsecret rest s2
        | (Res.ret (some err), s2) => (Res.ret (some err), s2)
        | (Res.panic e, s2) => (Res.panic e, s2)
        | (Res.outOfFuel, s2) => (Res.outOfFuel, s2)

/-- The hooks and the secret the `switch` of `Job` selects; `none` is its
`default` branch. -/
def selectCuration (curator : ClusterCurator) : Option (List Hook × List Hook × String) :=
  if curator.Spec.DesiredCuration = "install" then
    some (curator.Spec.Install.Prehook, curator.Spec.Install.Posthook,
      curator.Spec.Install.TowerAuthSecret)
  else if curator.Spec.DesiredCuration = "upgrade" then
    some (curator.Spec.Upgrade.Prehook, curator.Spec.Upgrade.Posthook,
      curator.Spec.Upgrade.TowerAuthSecret)
  else none

/-- Function `Job`; `jobType` is the value of the environment variable
`JOB_TYPE`, `fuel` bounds the polls of each monitored job. -/
def Job {σ : Type} (c : Client σ) (fuel : Nat) (jobType : String) (curator : ClusterCurator)
    (s : State σ) : Res (Option Error) × State σ :=
  if jobType ≠ PREHOOK ∧ jobType ≠ POSTHOOK then
    (Res.ret (some "Missing JOB_TYPE environment parameter, use \"prehook\" or \"posthook\""), s)
  else
    match selectCuration curator with
    | none =>
      (Res.ret (some ("The Spec.DesiredCuration value is not supported: " ++
        curator.Spec.DesiredCuration)), s)
    | some (prehook, posthook, towerauthsecret) =>
      let hooksToRun := if jobType = POSTHOOK then posthook else prehook
      if hooksToRun.length = 0 then (Res.ret none, s)
      else runHooks c fuel curator jobType towerauthsecret hooksToRun s

/-- Function `FindAnsibleTemplateNamefromCurator`; a nil `hooks` halts
through `utils.CheckError`. -/
def FindAnsibleTemplateNamefromCurator (hooks : Option Hooks) (jobType : String) :
    Res (Except Error (List Hook)) :=
  match hooks with
  | none =>
    match CheckError (some "No Ansible job hooks found") with
    | Res.panic e => Res.panic e
    | Res.outOfFuel => Res.outOfFuel
    | Res.ret _ => Res.panic "nil pointer dereference"
  | some h =>
    let hooksToRun := if jobType = POSTHOOK then h.Posthook else h.Prehook
    if hooksToRun.length = 0 then
      Res.ret (Except.error ("Missing " ++ jobType ++ " in curator kind "))
    else Res.ret (Except.ok hooksToRun)

/-! ## `pkg/jobs/importer/managedcluster.go` -/

/-- Type `metav1.Condition`, as far as the source reads it. -/
structure Condition where
  Type_ : String
  Status : ConditionStatus
  Reason : String
  Message : String

/-- The managed cluster as `MonitorImport` reads it; `none` is the nil slice. -/
structure ManagedCluster where
  Name : String
  Conditions : Option (List Condition)

/-- The clientset `managedclusterclient.Interface`, reduced to the one call made. -/
structure ManagedClusterClient (σ : Type) where
  Get : σ → String → Except Error ManagedCluster × σ

/-- Condition types of `open-cluster-management/api/cluster/v1`. -/
def ManagedClusterConditionJoined : String := "ManagedClusterJoined"
def ManagedClusterConditionHubDenied : String := "HubDeniedManagedCluster"
def ManagedClusterConditionAvailable : String := "ManagedClusterConditionAvailable"

/-- One pass of the inner `for` over the conditions: `some r` when a `case`
returns `r`, `none` when the pass ends without a return. -/
def scanImport : List Condition → Option (Option Error)
  | [] => none
  | condition :: rest =>
    if condition.Type_ = ManagedClusterConditionHubDenied then
      some (some "ManagedCluster join denied")
    else if condition.Type_ = ManagedClusterConditionAvailable then some none
    else if condition.Type_ = ManagedClusterConditionJoined then scanImport rest
    else scanImport rest

/-- The outer `for` of `MonitorImport`, over the cluster fetched before it. -/
def importLoop {σ : Type} (managedCluster : ManagedCluster) :
    Nat → State σ → Res (Option Error) × State σ
  | 0, s => (Res.outOfFuel, s)
  | fuel + 1, s =>
    match managedCluster.Conditions with
    | none => importLoop managedCluster fuel (sleep PauseTenSeconds s)
    | some conditions =>
      match scanImport conditions with
      | some r => (Res.ret r, s)
      | none => importLoop managedCluster fuel (sleep PauseTenSeconds s)

/-- Function `MonitorImport`. -/
def MonitorImport {σ : Type} (mcset : ManagedClusterClient σ) (fuel : Nat) (clusterName : String)
    (s : State σ) : Res (Option Error) × State σ :=
  match mcset.Get s.world clusterName with
  | (Except.error err, w) =>
    (Res.ret (some err), { world := w, log := s.log ++ [Event.getManagedCluster clusterName] })
  | (Except.ok managedCluster, w) =>
    importLoop managedCluster fuel
      { world := w, log := s.log ++ [Event.getManagedCluster clusterName] }

/-! ## `pkg/jobs/utils`: the credential path -/

/-- Go `strings.Split(s, sep)` for a separator of one character, on the
characters of `s`: the segments between the separators, one (empty) segment
for the empty string. -/
def splitSegments (sep : Char) : List Char → List (List Char)
  | [] => [[]]
  | ch :: rest =>
    if ch = sep then [] :: splitSegments sep rest
    else
      match splitSegments sep rest with
      | [] => [[ch]]
      | seg :: segs => (ch :: seg) :: segs

/-- Modelled from the spec: `utils.PathSplitterFromEnv` (pkg/jobs/utils/helpers.go
is missing, only its test is at hand). The credential path has the form
`namespace/secretName`: it is split on `/`, both segments are required, and
anything else is an error. -/
def PathSplitterFromEnv (path : String) : Except Error (String × String) :=
  match splitSegments '/' path.data with
  | [ns, name] =>
    if ns = [] ∨ name = [] then Except.error "the path must have the form namespace/secretName"
    else Except.ok (String.mk ns, String.mk name)
  | _ => Except.error "the path must have the form namespace/secretName"

/-! ## Vocabulary of the statements -/

/-- The list `hooksToRun` of `Job`: the prehooks or posthooks of the desired
curation, as the `switch` and the `if jobType == POSTHOOK` select them. -/
def hooksToRun (curator : ClusterCurator) (jobType : String) : List Hook :=
  match selectCuration curator with
  | some (prehook, posthook, _) => if jobType = POSTHOOK then posthook else prehook
  | none => []

/-- The secret reference `towerauthsecret` of `Job`. -/
def towerAuthSecret (curator : ClusterCurator) : String :=
  match selectCuration curator with
  | some (_, _, secret) => secret
  | none => ""

/-- The job template named in the `spec` of a job description. -/
def jobTemplateName (obj : Obj) : String :=
  match asMap (index obj "spec") with
  | some spec =>
    match asString (index spec "job_template_name") with
    | some t => t
    | none => ""
  | none => ""

/-- The templates of the jobs whose creation was requested, in log order. -/
def createdTemplates (log : List Event) : List String :=
  log.filterMap fun e =>
    match e with
    | Event.create obj => some (jobTemplateName obj)
    | _ => none

/-- The events of polling: fetches and sleeps. -/
def Event.isQuiet (e : Event) : Bool :=
  e.isGet || e.isSleep

/-- The shape of the events a monitoring loop adds to the log: fetches and
sleeps only when it does not end in success, and otherwise fetches and sleeps
followed by one final record of `current-ansiblejob` with status True. -/
def MonitorTrace (curator : ClusterCurator) (r : Res (Option Error)) (evs : List Event) : Prop :=
  ((∀ e ∈ evs, e.isQuiet = true) ∧ r ≠ Res.ret none) ∨
  (∃ evs0 name, evs = evs0 ++
      [Event.record curator.Namespace "current-ansiblejob" ConditionStatus.True name] ∧
    (∀ e ∈ evs0, e.isQuiet = true) ∧ (r = Res.ret none ∨ ∃ e, r = Res.panic e))

/-- Hook `h`, started in state `s`, had its job created with a generated
name and monitored to success, which left the state `s'`. -/
def HookSucceeds {σ : Type} (c : Client σ) (fuel : Nat) (curator : ClusterCurator)
    (jobType secret : String) (h : Hook) (s s' : State σ) : Prop :=
  ∃ job s1, RunAnsibleJob c curator jobType h secret s = (Res.ret (Except.ok job), s1) ∧
    GetName job ≠ "" ∧ MonitorAnsibleJob c fuel job curator s1 = (Res.ret none, s')

/-- The hooks of the list succeeded one after the other, each started in the
state its predecessor's monitoring left. -/
inductive HooksSucceed {σ : Type} (c : Client σ) (fuel : Nat) (curator : ClusterCurator)
    (jobType secret : String) : List Hook → State σ → State σ → Prop where
  | nil (s : State σ) : HooksSucceed c fuel curator jobType secret [] s s
  | cons (h : Hook) (rest : List Hook) (s s1 s2 : State σ) :
      HookSucceeds c fuel curator jobType secret h s s1 →
      HooksSucceed c fuel curator jobType secret rest s1 s2 →
      HooksSucceed c fuel curator jobType secret (h :: rest) s s2

/-- Creating the job of hook `h` (with its context fetches) returned the error
`err`, or monitoring the created job did; `s'` is the state at that return. -/
def HookFails {σ : Type} (c : Client σ) (fuel : Nat) (curator : ClusterCurator)
    (jobType secret : String) (h : Hook) (s : State σ) (err : Error) (s' : State σ) : Prop :=
  RunAnsibleJob c curator jobType h secret s = (Res.ret (Except.error err), s') ∨
  ∃ job s1, RunAnsibleJob c curator jobType h secret s = (Res.ret (Except.ok job), s1) ∧
    GetName job ≠ "" ∧ MonitorAnsibleJob c fuel job curator s1 = (Res.ret (some err), s')

/-- The curator with its `Operation` field replaced. -/
def withOperation (curator : ClusterCurator) (op : Option Operation) : ClusterCurator :=
  { curator with Operation := op }

/-- The status reports no terminal result: `ansibleJobResult` is absent, or it
is a mapping whose `status` is neither "successful" nor "error". -/
def NoResultStatus (jos : Obj) : Prop :=
  index jos "ansibleJobResult" = Value.null ∨
  ∃ result, index jos "ansibleJobResult" = Value.obj result ∧
    eqStr (index result "status") "successful" = false ∧
    eqStr (index result "status") "error" = false

/-- The `k8sJob` entry of the status is absent, or it is a mapping that holds a
string `namespacedName`. -/
def K8sJobWellTyped (jos : Obj) : Prop :=
  index jos "k8sJob" = Value.null ∨
  ∃ k n, index jos "k8sJob" = Value.obj k ∧ index k "namespacedName" = Value.str n

/-- The entry is a mapping whose reason is not "Failed". -/
def NotFailed (condition : Value) : Prop :=
  ∃ m, condition = Value.obj m ∧ eqStr (index m "reason") "Failed" = false

/-- The polls the loop passes over: the job has no status; or its status has no
conditions entry; or its status has a conditions list without an entry of
reason Failed (all entries being mappings), no terminal result status, and a
`k8sJob` entry that is absent or holds a string `namespacedName`. -/
def Skipped (jobResource : Obj) : Prop :=
  index jobResource "status" = Value.null ∨
  ∃ jos, index jobResource "status" = Value.obj jos ∧
    (index jos "conditions" = Value.null ∨
      ∃ conditions, index jos "conditions" = Value.arr conditions ∧
        NoResultStatus jos ∧ K8sJobWellTyped jos ∧ ∀ x ∈ conditions, NotFailed x)

/-- The events of `k` skipped polls: a fetch and a sleep of five seconds each. -/
def skippedPolls (ns name : String) : Nat → List Event
  | 0 => []
  | k + 1 => Event.get Kind.AnsibleJob ns name :: Event.sleep PauseFiveSeconds ::
      skippedPolls ns name k

/-- The fetched job reports result status `successful` in a status that holds
a conditions entry. -/
def ReportsSuccessful (jobResource : Obj) : Prop :=
  ∃ jos result, index jobResource "status" = Value.obj jos ∧
    isNil (index jos "conditions") = false ∧
    index jos "ansibleJobResult" = Value.obj result ∧
    index result "status" = Value.str "successful"

/-- The status last recorded for condition type `t` in a log. -/
def lastRecorded (t : String) (log : List Event) : Option ConditionStatus :=
  (log.filterMap (Event.recorded t)).getLast?

/-- The condition type does not decide the result of `MonitorImport`. -/
def Undeciding (condition : Condition) : Prop :=
  condition.Type_ ≠ ManagedClusterConditionHubDenied ∧
  condition.Type_ ≠ ManagedClusterConditionAvailable

/-- The hook's extraVars as `getAnsibleJob` decodes them: the empty mapping
when they are absent, the result of `json.Unmarshal` otherwise (`ok none` when
the decoding leaves no object but the nil map). -/
def decodeExtraVars {σ : Type} (c : Client σ) (extraVars : Option RawExtension) :
    Except Error (Option Obj) :=
  match extraVars with
  | none => Except.ok (some [])
  | some ev => c.Unmarshal ev.Raw

/-- An `AnsibleJob` object in the words of its specification: generated name
prefix, name, namespace, the annotation of the job type, the template, the
secret and the given `extra_vars`. -/
def jobObject (jobtype template secretRef name ns : String) (extraVars : Obj) : Obj :=
  [("apiVersion", Value.str "tower.ansible.com/v1alpha1"),
   ("kind", Value.str "AnsibleJob"),
   ("metadata", Value.obj
     [("generateName", Value.str (jobtype ++ "job-")),
      ("name", Value.str name),
      ("namespace", Value.str ns),
      ("annotations", Value.obj [("jobtype", Value.str jobtype)])]),
   ("spec", Value.obj
     [("job_template_name", Value.str template),
      ("tower_auth_secret", Value.str secretRef),
      ("extra_vars", Value.obj extraVars)])]

/-- The job description to submit: an `AnsibleJob` with an empty name, in the
curator's namespace, whose `extra_vars` are the hook's decoded extraVars with
the keys `cluster_deployment` and `machine_pool` set to the two fetched specs. -/
def submittedJob (jobtype template secretRef ns : String) (extraVars : Obj)
    (cdSpec mpSpec : Value) : Obj :=
  jobObject jobtype template secretRef "" ns
    (mapSet (mapSet extraVars "cluster_deployment" cdSpec) "machine_pool" mpSpec)

/-! ## A scripted API server, for running the embedding -/

/-- The answers of a scripted server: the two context resources, the names
given to created jobs in order (creation fails when none is left) and the
answers to the successive fetches of a job (not found when none is left). -/
structure Script where
  clusterDeployment : Except Error Obj
  machinePool : Except Error Obj
  names : List String
  polls : List (Except Error Obj)

/-- The object as the server stores it: the description with its name set. -/
def withName (obj : Obj) (name : String) : Obj :=
  match asMap (index obj "metadata") with
  | some md => mapSet obj "metadata" (Value.obj (mapSet md "name" (Value.str name)))
  | none => mapSet obj "metadata" (Value.obj [("name", Value.str name)])

/-- The client served from a script; `recordErr` is the answer of the status
recorder, `decodes` lists the extraVars that decode to an object; the literal
`null` decodes without error to the nil map. -/
def scriptClient (recordErr : Option Error) (decodes : List (String × Obj)) : Client Script where
  Get := fun w kind _ _ =>
    match kind with
    | Kind.ClusterDeployment => (w.clusterDeployment, w)
    | Kind.MachinePool => (w.machinePool, w)
    | Kind.AnsibleJob =>
      match w.polls with
      | [] => (Except.error "not found", w)
      | r :: rest => (r, { w with polls := rest })
  Create := fun w obj =>
    match w.names with
    | [] => (Except.error "create failed", w)
    | n :: rest => (Except.ok (withName obj n), { w with names := rest })
  RecordCurrentStatusCondition := fun w _ _ _ _ => (recordErr, w)
  Unmarshal := fun raw =>
    match decodes.lookup raw with
    | some m => Except.ok (some m)
    | none => if raw = "null" then Except.ok none else Except.error "invalid character"
  ToUnstructured := fun o => Except.ok o

/-- The initial state over a script, with an empty log. -/
def Script.start (w : Script) : State Script :=
  { world := w, log := [] }

/-- A job resource as fetched: its metadata and, when given, its status. -/
def fetchedJob (ns name : String) (status : Value) : Obj :=
  [("metadata", Value.obj [("name", Value.str name), ("namespace", Value.str ns)]),
   ("status", status)]

/-- The clientset that serves one managed cluster. -/
def clusterServer (managedCluster : ManagedCluster) : ManagedClusterClient Unit where
  Get := fun w _ => (Except.ok managedCluster, w)

/-- A clientset over a cluster whose status changes: the world counts the
fetches served; the first fetch finds no conditions, every later fetch finds
the condition Available. -/
def lateAvailableServer : ManagedClusterClient Nat where
  Get := fun w _ =>
    match w with
    | 0 => (Except.ok (ManagedCluster.mk "c1" none), 1)
    | n + 1 =>
      (Except.ok (ManagedCluster.mk "c1" (some
        [Condition.mk ManagedClusterConditionAvailable ConditionStatus.True "" ""])), n + 2)

/-! ## Inputs of the concrete runs -/

/-- A hook without extraVars. -/
def plainHook (name : String) : Hook :=
  { Name := name, ExtraVars := none }

/-- A curator of cluster `c1` with the given desired curation, whose install
and upgrade sections both hold the given hook lists. -/
def curatorOf (desired : String) (pre post : List Hook) (op : Option Operation) : ClusterCurator :=
  { Name := "c1", Namespace := "c1", Operation := op,
    Spec :=
      { DesiredCuration := desired,
        Install := { TowerAuthSecret := "toweraccess", Prehook := pre, Posthook := post },
        Scale := { TowerAuthSecret := "", Prehook := [], Posthook := [] },
        Destroy := { TowerAuthSecret := "", Prehook := [], Posthook := [] },
        Upgrade :=
          { DesiredUpdate := "", TowerAuthSecret := "toweraccess", Prehook := pre, Posthook := post } } }

/-- A context resource with a small `spec`. -/
def contextResource : Obj :=
  [("spec", Value.obj [("baseDomain", Value.str "example.com")])]

/-- A script whose context fetches both succeed. -/
def scriptOf (names : List String) (polls : List (Except Error Obj)) : Script :=
  { clusterDeployment := Except.ok contextResource, machinePool := Except.ok contextResource,
    names := names, polls := polls }

/-- A status with an empty conditions list and result status `successful`. -/
def statusSuccessful : Value :=
  Value.obj [("conditions", Value.arr []),
    ("ansibleJobResult", Value.obj [("status", Value.str "successful")])]

/-- A status with an empty conditions list and result status `error`. -/
def statusError : Value :=
  Value.obj [("conditions", Value.arr []),
    ("ansibleJobResult", Value.obj [("status", Value.str "error")])]

/-- Three posthooks A, B, C of an install; the job of A succeeds at its first
poll and the job of B reports an error. -/
def threeHooks : ClusterCurator :=
  curatorOf "install" [] [plainHook "A", plainHook "B", plainHook "C"] none

def threeHooksScript : Script :=
  scriptOf ["job-a", "job-b", "job-c"]
    [Except.ok (fetchedJob "c1" "job-a" statusSuccessful),
     Except.ok (fetchedJob "c1" "job-b" statusError)]

/-- Posthooks A and B of an install, with the marker `retryPosthook` naming B. -/
def resumeAtB : ClusterCurator :=
  curatorOf "install" [] [plainHook "A", plainHook "B"] (some { RetryPosthook := "B" })

def resumeScript : Script :=
  scriptOf ["job-a", "job-b"]
    [Except.ok (fetchedJob "c1" "job-a" statusSuccessful),
     Except.ok (fetchedJob "c1" "job-b" statusSuccessful)]

/-- A curator of cluster `c1` without hooks. -/
def plainCurator : ClusterCurator :=
  curatorOf "install" [] [] none

/-- A status reporting result status `error` and holding no conditions entry. -/
def statusErrorNoConditions : Value :=
  Value.obj [("ansibleJobResult", Value.obj [("status", Value.str "error")])]

/-- A status whose conditions are a running one and two failed ones, without
result status and without `k8sJob`. -/
def statusTwoFailed : Value :=
  Value.obj [("conditions", Value.arr
    [Value.obj [("reason", Value.str "Running"), ("message", Value.str "Running reconciliation")],
     Value.obj [("reason", Value.str "Failed"), ("message", Value.str "playbook failed")],
     Value.obj [("reason", Value.str "Failed"), ("message", Value.str "second failure")]])]

/-- A status without result status whose only condition has reason Failed and
the message "playbook failed", next to a `k8sJob` entry without
`namespacedName`. -/
def statusFailedBareK8sJob : Value :=
  Value.obj [("conditions", Value.arr
      [Value.obj [("reason", Value.str "Failed"), ("message", Value.str "playbook failed")]]),
    ("k8sJob", Value.obj [("created", Value.bool true)])]

/-- A status reporting result status `successful` and holding no conditions entry. -/
def statusSuccessfulNoConditions : Value :=
  Value.obj [("ansibleJobResult", Value.obj [("status", Value.str "successful")])]

/-- A status without result status whose only condition has reason Failed. -/
def statusFailed : Value :=
  Value.obj [("conditions", Value.arr
    [Value.obj [("reason", Value.str "Failed"), ("message", Value.str "playbook failed")]])]

/-- A script without cluster deployment. -/
def noDeploymentScript : Script :=
  { clusterDeployment := Except.error "clusterdeployments c1 not found",
    machinePool := Except.ok contextResource, names := ["job-a"], polls := [] }

/-- A script without machine pool. -/
def noMachinePoolScript : Script :=
  { clusterDeployment := Except.ok contextResource,
    machinePool := Except.error "machinepools c1-worker not found",
    names := ["job-a"], polls := [] }

/-- A condition of the given type. -/
def conditionOf (type : String) : Condition :=
  { Type_ := type, Status := ConditionStatus.True, Reason := "", Message := "" }

/-- A managed cluster `c1` with conditions of the given types, in order. -/
def clusterWith (types : List String) : ManagedCluster :=
  { Name := "c1", Conditions := some (types.map conditionOf) }

/-- The state before the import monitor starts. -/
def importStart : State Unit :=
  { world := (), log := [] }

/-- The state after the one fetch of the managed cluster. -/
def importFetched : State Unit :=
  { world := (), log := [Event.getManagedCluster "c1"] }

/-- Posthooks A and B of an install, served by a script that can name no job:
the creation of the job of A fails. -/
def createFailsScript : Script :=
  scriptOf [] []

/-- A script that gives the first created job the empty name. -/
def unnamedScript : Script :=
  scriptOf ["", "job-b"] []

/-- The extraVars of hook `decorated`, as raw text and as the mapping they
decode to: a key of the hook's own and a hook-supplied `cluster_deployment`. -/
def rawExtraVars : String :=
  "\x7b\"region\": \"east\", \"cluster_deployment\": \"mine\"\x7d"

def decodedVars : Obj :=
  [("region", Value.str "east"), ("cluster_deployment", Value.str "mine")]

/-- A hook with extraVars. -/
def decoratedHook : Hook :=
  { Name := "A", ExtraVars := some { Raw := rawExtraVars } }

/-- A status whose conditions hold a failed condition and which reports result
status `successful`. -/
def statusFailedButSuccessful : Value :=
  Value.obj [("conditions", Value.arr
      [Value.obj [("reason", Value.str "Failed"), ("message", Value.str "playbook failed")]]),
    ("ansibleJobResult", Value.obj [("status", Value.str "successful")])]

/-- A status whose conditions hold a failed condition and which reports result
status `error`. -/
def statusFailedAndError : Value :=
  Value.obj [("conditions", Value.arr
      [Value.obj [("reason", Value.str "Failed"), ("message", Value.str "playbook failed")]]),
    ("ansibleJobResult", Value.obj [("status", Value.str "error")])]

/-- Hooks with two prehooks and no posthook. -/
def prehooksOnly : Hooks :=
  { TowerAuthSecret := "toweraccess", Prehook := [plainHook "A", plainHook "B"], Posthook := [] }

/-- A hook whose extraVars are the JSON literal `null`. -/
def nullVarsHook : Hook :=
  { Name := "A", ExtraVars := some { Raw := "null" } }

/-- A hook whose extraVars are not JSON. -/
def brokenVarsHook : Hook :=
  { Name := "A", ExtraVars := some { Raw := "region=east" } }

/-! ## The hook runner: selection of the hook list (C1) -/

theorem selectCuration_install (curator : ClusterCurator)
    (h : curator.Spec.DesiredCuration = "install") :
    selectCuration curator = some (curator.Spec.Install.Prehook, curator.Spec.Install.Posthook,
      curator.Spec.Install.TowerAuthSecret) := by
  simp [selectCuration, h]

theorem selectCuration_upgrade (curator : ClusterCurator)
    (h : curator.Spec.DesiredCuration = "upgrade") :
    selectCuration curator = some (curator.Spec.Upgrade.Prehook, curator.Spec.Upgrade.Posthook,
      curator.Spec.Upgrade.TowerAuthSecret) := by
  simp [selectCuration, h]

theorem selectCuration_other (curator : ClusterCurator)
    (h1 : curator.Spec.DesiredCuration ≠ "install")
    (h2 : curator.Spec.DesiredCuration ≠ "upgrade") :
    selectCuration curator = none := by
  simp [selectCuration, h1, h2]

theorem runHooks_nil {σ : Type} (c : Client σ) (fuel : Nat) (curator : ClusterCurator)
    (jobType secret : String) (s : State σ) :
    runHooks c fuel curator jobType secret [] s = (Res.ret none, s) := by
  simp [runHooks]

/-- With a valid job type and a supported curation, `Job` is the loop over
the selected hooks. -/
theorem Job_eq_runHooks {σ : Type} (c : Client σ) (fuel : Nat) (jobType : String)
    (curator : ClusterCurator) (s : State σ)
    (hjt : jobType = PREHOOK ∨ jobType = POSTHOOK)
    (hcur : curator.Spec.DesiredCuration = "install" ∨ curator.Spec.DesiredCuration = "upgrade") :
    Job c fuel jobType curator s =
      runHooks c fuel curator jobType (towerAuthSecret curator) (hooksToRun curator jobType) s := by
  have hguard : ¬ (jobType ≠ PREHOOK ∧ jobType ≠ POSTHOOK) := by
    rcases hjt with h | h <;> simp [h]
  have hsel : ∃ pre post secret, selectCuration curator = some (pre, post, secret) := by
    rcases hcur with h | h
    · exact ⟨_, _, _, selectCuration_install curator h⟩
    · exact ⟨_, _, _, selectCuration_upgrade curator h⟩
  obtain ⟨pre, post, secret, hsel⟩ := hsel
  unfold Job
  rw [if_neg hguard]
  simp only [hsel, hooksToRun, towerAuthSecret]
  by_cases hlen : (if jobType = POSTHOOK then post else pre).length = 0
  · rw [if_pos hlen]
    have : (if jobType = POSTHOOK then post else pre) = [] := List.length_eq_zero.mp hlen
    rw [this, runHooks_nil]
  · rw [if_neg hlen]

/-- The `default` branch of the `switch` of `Job`. -/
theorem Job_unsupported {σ : Type} (c : Client σ) (fuel : Nat) (jobType : String)
    (curator : ClusterCurator) (s : State σ)
    (hjt : jobType = PREHOOK ∨ jobType = POSTHOOK)
    (h1 : curator.Spec.DesiredCuration ≠ "install")
    (h2 : curator.Spec.DesiredCuration ≠ "upgrade") :
    Job c fuel jobType curator s =
      (Res.ret (some ("The Spec.DesiredCuration value is not supported: " ++
        curator.Spec.DesiredCuration)), s) := by
  have hguard : ¬ (jobType ≠ PREHOOK ∧ jobType ≠ POSTHOOK) := by
    rcases hjt with h | h <;> simp [h]
  unfold Job
  rw [if_neg hguard]
  simp only [selectCuration_other curator h1 h2]

/-- C1 (as amended): under either job type, a curator whose desired curation
is install or upgrade and whose hook list for the phase is empty makes `Job`
return nil without issuing any call (state and log unchanged); for every
other desired curation, scale and destroy included, `Job` returns the error
"The Spec.DesiredCuration value is not supported: ..." and likewise issues no
call. -/
theorem Job_empty_hooks {σ : Type} (c : Client σ) (fuel : Nat) (jobType : String)
    (curator : ClusterCurator) (s : State σ)
    (hjt : jobType = PREHOOK ∨ jobType = POSTHOOK) :
    (curator.Spec.DesiredCuration = "install" →
      (if jobType = POSTHOOK then curator.Spec.Install.Posthook
        else curator.Spec.Install.Prehook) = [] →
      Job c fuel jobType curator s = (Res.ret none, s)) ∧
    (curator.Spec.DesiredCuration = "upgrade" →
      (if jobType = POSTHOOK then curator.Spec.Upgrade.Posthook
        else curator.Spec.Upgrade.Prehook) = [] →
      Job c fuel jobType curator s = (Res.ret none, s)) ∧
    (curator.Spec.DesiredCuration ≠ "install" → curator.Spec.DesiredCuration ≠ "upgrade" →
      Job c fuel jobType curator s =
        (Res.ret (some ("The Spec.DesiredCuration value is not supported: " ++
          curator.Spec.DesiredCuration)), s)) := by
  refine ⟨?_, ?_, ?_⟩
  · intro hd hempty
    rw [Job_eq_runHooks c fuel jobType curator s hjt (Or.inl hd)]
    simp only [hooksToRun, selectCuration_install curator hd, hempty, runHooks_nil]
  · intro hd hempty
    rw [Job_eq_runHooks c fuel jobType curator s hjt (Or.inr hd)]
    simp only [hooksToRun, selectCuration_upgrade curator hd, hempty, runHooks_nil]
  · intro h1 h2
    exact Job_unsupported c fuel jobType curator s hjt h1 h2

/-- Instance of `Job_empty_hooks`: install without prehooks returns nil with
an empty log, destroy is rejected with an empty log. -/
theorem Job_empty_hooks_witness :
    Job (scriptClient none []) 3 PREHOOK (curatorOf "install" [] [plainHook "A"] none)
        (scriptOf [] []).start = (Res.ret none, (scriptOf [] []).start) ∧
    Job (scriptClient none []) 3 POSTHOOK (curatorOf "destroy" [] [] none)
        (scriptOf [] []).start =
      (Res.ret (some ("The Spec.DesiredCuration value is not supported: " ++ "destroy")),
        (scriptOf [] []).start) :=
  ⟨(Job_empty_hooks (scriptClient none []) 3 PREHOOK (curatorOf "install" [] [plainHook "A"] none)
      (scriptOf [] []).start (Or.inl rfl)).1 rfl (by decide),
   (Job_empty_hooks (scriptClient none []) 3 POSTHOOK (curatorOf "destroy" [] [] none)
      (scriptOf [] []).start (Or.inr rfl)).2.2 (by decide) (by decide)⟩

/-- C1 fails as stated: a curator whose desired curation is scale, with every
hook list empty, makes `Job` return an error instead of nil. -/
theorem Job_scale_empty_hooks_is_error :
    (curatorOf "scale" [] [] none).Spec.DesiredCuration = "scale" ∧
    (curatorOf "scale" [] [] none).Spec.Scale.Prehook = [] ∧
    (Job (scriptClient none []) 3 PREHOOK (curatorOf "scale" [] [] none) (scriptOf [] []).start).1 =
      Res.ret (some "The Spec.DesiredCuration value is not supported: scale") := by
  refine ⟨rfl, rfl, ?_⟩
  rfl

/-! ## Association lists and the log -/

theorem asMap_obj (m : Obj) : asMap (Value.obj m) = some m := rfl

theorem asString_str (t : String) : asString (Value.str t) = some t := rfl

theorem asList_arr (xs : List Value) : asList (Value.arr xs) = some xs := rfl

theorem index_nil (k : String) : index [] k = Value.null := by
  simp [index]

theorem index_cons (a : String) (b : Value) (rest : Obj) (k : String) :
    index ((a, b) :: rest) k = if k = a then b else index rest k := by
  by_cases h : k = a
  · simp [index, List.lookup, h]
  · have hb : (k == a) = false := by simpa using h
    simp [index, List.lookup, hb, h]

theorem index_mapSet (m : Obj) (k : String) (v : Value) (k' : String) :
    index (mapSet m k v) k' = if k' = k then v else index m k' := by
  induction m with
  | nil => simp [mapSet, index_cons, index_nil]
  | cons p rest ih =>
    obtain ⟨a, b⟩ := p
    by_cases hak : a = k
    · subst hak
      simp only [mapSet, if_true, index_cons]
      by_cases h1 : k' = a <;> simp [h1]
    · simp only [mapSet, if_neg hak, index_cons, ih]
      by_cases h1 : k' = a
      · have : k' ≠ k := fun h => hak (h1 ▸ h)
        simp [h1, hak]
      · simp [h1]

theorem createdTemplates_append (l1 l2 : List Event) :
    createdTemplates (l1 ++ l2) = createdTemplates l1 ++ createdTemplates l2 := by
  simp [createdTemplates, List.filterMap_append]

theorem jobTemplateName_setExtraVar (job job' : Obj) (key : String) (v : Value)
    (h : setExtraVar job key v = Res.ret job') :
    jobTemplateName job' = jobTemplateName job := by
  unfold setExtraVar at h
  cases hs : asMap (index job "spec") with
  | none => simp [hs] at h
  | some spec =>
    simp only [hs] at h
    cases he : assignEntry (index spec "extra_vars") key v with
    | panic e => simp [he] at h
    | outOfFuel => simp [he] at h
    | ret ev =>
      simp only [he, Res.ret.injEq] at h
      subst h
      simp [jobTemplateName, index_mapSet, asMap_obj, hs]

theorem jobTemplateName_getAnsibleJob {σ : Type} (c : Client σ)
    (jobtype template secretRef : String) (extraVars : Option RawExtension)
    (name clusterName : String) (job : Obj)
    (h : getAnsibleJob c jobtype template secretRef extraVars name clusterName = Res.ret job) :
    jobTemplateName job = template := by
  unfold getAnsibleJob at h
  simp only [index_cons] at h
  split at h
  · simp at h
  · simp at h
  · simp [assignEntry] at h
    subst h
    simp [jobTemplateName, index_mapSet, index_cons, asMap_obj, asString_str, mapSet]

theorem getClusterDeployment_log {σ : Type} (c : Client σ) (ns : String) (s : State σ) :
    (getClusterDeployment c ns s).2.log = s.log ++ [Event.get Kind.ClusterDeployment ns ns] := by
  unfold getClusterDeployment clientGet
  split <;> rename_i heq <;> simp only [Prod.mk.injEq] at heq <;> rw [← heq.2]

theorem getMachinePool_log {σ : Type} (c : Client σ) (ns : String) (s : State σ) :
    (getMachinePool c ns s).2.log = s.log ++ [Event.get Kind.MachinePool ns (ns ++ MPSUFFIX)] := by
  unfold getMachinePool clientGet
  split <;> rename_i heq <;> simp only [Prod.mk.injEq] at heq <;> rw [← heq.2]

theorem clientCreate_log {σ : Type} (c : Client σ) (obj : Obj) (s : State σ) :
    (clientCreate c obj s).2.log = s.log ++ [Event.create obj] := rfl

/-- A successful `RunAnsibleJob` issued the two context fetches and then one
creation, of a description naming the hook's template. -/
theorem RunAnsibleJob_ok_log {σ : Type} (c : Client σ) (curator : ClusterCurator)
    (jobtype : String) (hook : Hook) (secretRef : String) (s s' : State σ) (job : Obj)
    (h : RunAnsibleJob c curator jobtype hook secretRef s = (Res.ret (Except.ok job), s')) :
    ∃ desc, s'.log = s.log ++
        [Event.get Kind.ClusterDeployment curator.Namespace curator.Namespace,
         Event.get Kind.MachinePool curator.Namespace (curator.Namespace ++ MPSUFFIX),
         Event.create desc] ∧ jobTemplateName desc = hook.Name := by
  unfold RunAnsibleJob at h
  simp only at h
  split at h
  · simp at h
  · simp at h
  · rename_i aj haj
    split at h
    · simp at h
    · rename_i cd s1 hcd
      split at h
      · simp at h
      · rename_i mp s2 hmp
        split at h
        · simp at h
        · simp at h
        · rename_i job1 h1
          split at h
          · simp at h
          · simp at h
          · rename_i job2 h2
            split at h
            · simp at h
            · rename_i created s3 hcr
              simp only [Prod.mk.injEq, Res.ret.injEq, Except.ok.injEq] at h
              refine ⟨job2, ?_, ?_⟩
              · have e1 := getClusterDeployment_log c curator.Namespace s
                have e2 := getMachinePool_log c curator.Namespace s1
                have e3 := clientCreate_log c job2 s2
                rw [hcd] at e1
                rw [hmp] at e2
                rw [hcr] at e3
                simp only at e1 e2 e3
                rw [← h.2, e3, e2, e1]
                simp
              · rw [jobTemplateName_setExtraVar job1 job2 _ _ h2,
                  jobTemplateName_setExtraVar aj job1 _ _ h1]
                exact jobTemplateName_getAnsibleJob c _ _ _ _ _ _ aj haj

/-- Whatever the outcome of `RunAnsibleJob`, it requested at most one
creation, and only of a description naming the hook's template. -/
theorem RunAnsibleJob_log {σ : Type} (c : Client σ) (curator : ClusterCurator)
    (jobtype : String) (hook : Hook) (secretRef : String) (s : State σ) :
    ∃ evs, (RunAnsibleJob c curator jobtype hook secretRef s).2.log = s.log ++ evs ∧
      (createdTemplates evs = [] ∨ createdTemplates evs = [hook.Name]) := by
  unfold RunAnsibleJob
  simp only
  split
  · exact ⟨[], by simp, Or.inl rfl⟩
  · exact ⟨[], by simp, Or.inl rfl⟩
  · rename_i aj haj
    have e1 := getClusterDeployment_log c curator.Namespace s
    split
    · rename_i err s1 hcd
      rw [hcd] at e1
      exact ⟨[Event.get Kind.ClusterDeployment curator.Namespace curator.Namespace], e1,
        Or.inl rfl⟩
    · rename_i cd s1 hcd
      rw [hcd] at e1
      have e2 := getMachinePool_log c curator.Namespace s1
      simp only at e1
      split
      · rename_i err s2 hmp
        rw [hmp] at e2
        simp only at e2
        refine ⟨[Event.get Kind.ClusterDeployment curator.Namespace curator.Namespace,
          Event.get Kind.MachinePool curator.Namespace (curator.Namespace ++ MPSUFFIX)], ?_,
          Or.inl rfl⟩
        · simp only [e2, e1, List.append_assoc]
          rfl
      · rename_i mp s2 hmp
        rw [hmp] at e2
        simp only at e2
        have hq : s2.log = s.log ++ [Event.get Kind.ClusterDeployment curator.Namespace
            curator.Namespace, Event.get Kind.MachinePool curator.Namespace
            (curator.Namespace ++ MPSUFFIX)] := by
          simp [e2, e1]
        have hnone : createdTemplates [Event.get Kind.ClusterDeployment curator.Namespace
            curator.Namespace, Event.get Kind.MachinePool curator.Namespace
            (curator.Namespace ++ MPSUFFIX)] = [] := rfl
        split
        · exact ⟨_, hq, Or.inl hnone⟩
        · exact ⟨_, hq, Or.inl hnone⟩
        · rename_i job1 h1
          split
          · exact ⟨_, hq, Or.inl hnone⟩
          · exact ⟨_, hq, Or.inl hnone⟩
          · rename_i job2 h2
            have e3 := clientCreate_log c job2 s2
            have ht : jobTemplateName job2 = hook.Name := by
              rw [jobTemplateName_setExtraVar job1 job2 _ _ h2,
                jobTemplateName_setExtraVar aj job1 _ _ h1]
              exact jobTemplateName_getAnsibleJob c _ _ _ _ _ _ aj haj
            split
            · rename_i err s3 hcr
              rw [hcr] at e3
              simp only at e3
              refine ⟨[Event.get Kind.ClusterDeployment curator.Namespace curator.Namespace,
                Event.get Kind.MachinePool curator.Namespace (curator.Namespace ++ MPSUFFIX),
                Event.create job2], ?_, Or.inr ?_⟩
              · simp only [e3, hq, List.append_assoc]
                rfl
              · simp [createdTemplates, ht]
            · rename_i created s3 hcr
              rw [hcr] at e3
              simp only at e3
              refine ⟨[Event.get Kind.ClusterDeployment curator.Namespace curator.Namespace,
                Event.get Kind.MachinePool curator.Namespace (curator.Namespace ++ MPSUFFIX),
                Event.create job2], ?_, Or.inr ?_⟩
              · simp only [e3, hq, List.append_assoc]
                rfl
              · simp [createdTemplates, ht]

theorem MonitorTrace_cons {curator : ClusterCurator} {r : Res (Option Error)}
    {evs : List Event} (e : Event) (he : e.isQuiet = true) (h : MonitorTrace curator r evs) :
    MonitorTrace curator r (e :: evs) := by
  rcases h with ⟨hq, hr⟩ | ⟨evs0, name, heq, hq, hr⟩
  · left
    refine ⟨?_, hr⟩
    intro x hx
    rcases List.mem_cons.mp hx with rfl | hx
    · exact he
    · exact hq x hx
  · right
    refine ⟨e :: evs0, name, by simp [heq], ?_, hr⟩
    intro x hx
    rcases List.mem_cons.mp hx with rfl | hx
    · exact he
    · exact hq x hx

theorem monitorLoop_log {σ : Type} (c : Client σ) (curator : ClusterCurator)
    (ns name : String) (fuel : Nat) (s : State σ) :
    ∃ evs, (monitorLoop c curator ns name fuel s).2.log = s.log ++ evs ∧
      MonitorTrace curator (monitorLoop c curator ns name fuel s).1 evs := by
  induction fuel generalizing s with
  | zero =>
    refine ⟨[], by simp [monitorLoop], Or.inl ⟨by simp, ?_⟩⟩
    simp [monitorLoop]
  | succ n ih =>
    unfold monitorLoop
    have hget : Event.isQuiet (Event.get Kind.AnsibleJob ns name) = true := rfl
    have hsleep : Event.isQuiet (Event.sleep PauseFiveSeconds) = true := rfl
    have hrec : ∀ s1 : State σ, s1.log = s.log ++ [Event.get Kind.AnsibleJob ns name] →
        ∃ evs, (monitorLoop c curator ns name n (sleep PauseFiveSeconds s1)).2.log = s.log ++ evs ∧
          MonitorTrace curator
            (monitorLoop c curator ns name n (sleep PauseFiveSeconds s1)).1 evs := by
      intro s1 hs1
      obtain ⟨evs, hl, ht⟩ := ih (sleep PauseFiveSeconds s1)
      refine ⟨Event.get Kind.AnsibleJob ns name :: Event.sleep PauseFiveSeconds :: evs, ?_,
        MonitorTrace_cons _ hget (MonitorTrace_cons _ hsleep ht)⟩
      rw [hl]
      simp [sleep, hs1]
    split
    · rename_i err s1 hg
      have hs1 : s1.log = s.log ++ [Event.get Kind.AnsibleJob ns name] := by
        simp only [clientGet, Prod.mk.injEq] at hg
        rw [← hg.2]
      refine ⟨_, hs1, Or.inl ⟨?_, by simp⟩⟩
      intro e he
      rw [List.mem_singleton.mp he]
      exact hget
    · rename_i jobResource s1 hg
      have hs1 : s1.log = s.log ++ [Event.get Kind.AnsibleJob ns name] := by
        simp only [clientGet, Prod.mk.injEq] at hg
        rw [← hg.2]
      split
      · exact hrec s1 hs1
      · exact hrec s1 hs1
      · refine ⟨_, hs1, Or.inl ⟨?_, by simp⟩⟩
        intro e he
        rw [List.mem_singleton.mp he]
        exact hget
      · refine ⟨_, hs1, Or.inl ⟨?_, by simp⟩⟩
        intro e he
        rw [List.mem_singleton.mp he]
        exact hget
      · have hlog : (recordCurrentStatusCondition c curator.Namespace "current-ansiblejob"
            ConditionStatus.True (GetName jobResource) s1).2.log = s.log ++
            ([Event.get Kind.AnsibleJob ns name] ++ [Event.record curator.Namespace
              "current-ansiblejob" ConditionStatus.True (GetName jobResource)]) := by
          simp [recordCurrentStatusCondition, hs1]
        have hq : ∀ e ∈ [Event.get Kind.AnsibleJob ns name], e.isQuiet = true := by
          intro e he
          rw [List.mem_singleton.mp he]
          exact hget
        cases hr : (recordCurrentStatusCondition c curator.Namespace "current-ansiblejob"
            ConditionStatus.True (GetName jobResource) s1).1 with
        | none =>
          refine ⟨[Event.get Kind.AnsibleJob ns name] ++ [Event.record curator.Namespace
            "current-ansiblejob" ConditionStatus.True (GetName jobResource)], ?_,
            Or.inr ⟨[Event.get Kind.AnsibleJob ns name], GetName jobResource, rfl, hq, ?_⟩⟩
          · simp only [hr, CheckError]
            exact hlog
          · simp [hr, CheckError]
        | some err =>
          refine ⟨[Event.get Kind.AnsibleJob ns name] ++ [Event.record curator.Namespace
            "current-ansiblejob" ConditionStatus.True (GetName jobResource)], ?_,
            Or.inr ⟨[Event.get Kind.AnsibleJob ns name], GetName jobResource, rfl, hq, ?_⟩⟩
          · simp only [hr, CheckError]
            exact hlog
          · simp [hr, CheckError]

theorem createdTemplates_quiet (evs : List Event) (h : ∀ e ∈ evs, e.isQuiet = true) :
    createdTemplates evs = [] := by
  induction evs with
  | nil => rfl
  | cons e rest ih =>
    have hrest := ih (fun x hx => h x (List.mem_cons_of_mem _ hx))
    have he := h e (List.mem_cons_self _ _)
    cases e <;> simp_all [createdTemplates, Event.isQuiet, Event.isGet, Event.isSleep]

theorem createdTemplates_of_trace {curator : ClusterCurator} {r : Res (Option Error)}
    {evs : List Event} (h : MonitorTrace curator r evs) : createdTemplates evs = [] := by
  rcases h with ⟨hq, _⟩ | ⟨evs0, name, heq, hq, _⟩
  · exact createdTemplates_quiet evs hq
  · rw [heq, createdTemplates_append, createdTemplates_quiet evs0 hq]
    rfl

/-- The log of `MonitorAnsibleJob`: first the record of `current-ansiblejob`
with status False and the job's name, then the events of the loop. -/
theorem MonitorAnsibleJob_log {σ : Type} (c : Client σ) (fuel : Nat) (jobResource : Obj)
    (curator : ClusterCurator) (s : State σ) :
    ∃ evs, (MonitorAnsibleJob c fuel jobResource curator s).2.log =
        s.log ++ Event.record curator.Namespace "current-ansiblejob" ConditionStatus.False
          (GetName jobResource) :: evs ∧
      MonitorTrace curator (MonitorAnsibleJob c fuel jobResource curator s).1 evs := by
  unfold MonitorAnsibleJob
  cases hr : (recordCurrentStatusCondition c curator.Namespace "current-ansiblejob"
      ConditionStatus.False (GetName jobResource) s).1 with
  | some err =>
    refine ⟨[], ?_, Or.inl ⟨by simp, ?_⟩⟩
    · simp only [hr, CheckError]
      simp [recordCurrentStatusCondition]
    · simp only [hr, CheckError]
      simp
  | none =>
    simp only [hr, CheckError]
    obtain ⟨evs, hl, ht⟩ := monitorLoop_log c curator (GetNamespace jobResource)
      (GetName jobResource) fuel (recordCurrentStatusCondition c curator.Namespace
        "current-ansiblejob" ConditionStatus.False (GetName jobResource) s).2
    refine ⟨evs, ?_, ht⟩
    rw [hl]
    simp [recordCurrentStatusCondition]

theorem MonitorAnsibleJob_createdTemplates {σ : Type} (c : Client σ) (fuel : Nat)
    (jobResource : Obj) (curator : ClusterCurator) (s : State σ) :
    createdTemplates (MonitorAnsibleJob c fuel jobResource curator s).2.log =
      createdTemplates s.log := by
  obtain ⟨evs, hl, ht⟩ := MonitorAnsibleJob_log c fuel jobResource curator s
  rw [hl, createdTemplates_append]
  have : createdTemplates (Event.record curator.Namespace "current-ansiblejob"
      ConditionStatus.False (GetName jobResource) :: evs) = [] := by
    have := createdTemplates_of_trace ht
    simpa [createdTemplates] using this
  rw [this, List.append_nil]

/-! ## The hook runner: order of execution (C2) -/

theorem runHooks_of_succeeds {σ : Type} (c : Client σ) (fuel : Nat) (curator : ClusterCurator)
    (jobType secret : String) (h : Hook) (rest : List Hook) (s s1 : State σ)
    (hs : HookSucceeds c fuel curator jobType secret h s s1) :
    runHooks c fuel curator jobType secret (h :: rest) s =
      runHooks c fuel curator jobType secret rest s1 := by
  obtain ⟨job, s0, hrun, hname, hmon⟩ := hs
  rw [runHooks]
  simp only [hrun, if_neg hname, hmon]

theorem runHooks_of_fails {σ : Type} (c : Client σ) (fuel : Nat) (curator : ClusterCurator)
    (jobType secret : String) (h : Hook) (rest : List Hook) (s s' : State σ) (err : Error)
    (hf : HookFails c fuel curator jobType secret h s err s') :
    runHooks c fuel curator jobType secret (h :: rest) s = (Res.ret (some err), s') := by
  rcases hf with hrun | ⟨job, s0, hrun, hname, hmon⟩
  · rw [runHooks]
    simp only [hrun]
  · rw [runHooks]
    simp only [hrun, if_neg hname, hmon]

theorem runHooks_append_of_succeed {σ : Type} (c : Client σ) (fuel : Nat)
    (curator : ClusterCurator) (jobType secret : String) (pre rest : List Hook)
    (s s1 : State σ) (hs : HooksSucceed c fuel curator jobType secret pre s s1) :
    runHooks c fuel curator jobType secret (pre ++ rest) s =
      runHooks c fuel curator jobType secret rest s1 := by
  induction hs with
  | nil s => rfl
  | cons h tl s sa sb hh _ ih =>
    rw [List.cons_append, runHooks_of_succeeds c fuel curator jobType secret h (tl ++ rest) s sa hh]
    exact ih

theorem HooksSucceed_of_runHooks {σ : Type} (c : Client σ) (fuel : Nat)
    (curator : ClusterCurator) (jobType secret : String) (hooks : List Hook)
    (s s' : State σ)
    (h : runHooks c fuel curator jobType secret hooks s = (Res.ret none, s')) :
    HooksSucceed c fuel curator jobType secret hooks s s' := by
  induction hooks generalizing s with
  | nil =>
    simp only [runHooks, Prod.mk.injEq, true_and] at h
    subst h
    exact HooksSucceed.nil s
  | cons hd tl ih =>
    rw [runHooks] at h
    split at h
    · simp at h
    · simp at h
    · simp at h
    · rename_i job s1 hrun
      split at h
      · simp at h
      · rename_i hname
        split at h
        · rename_i s2 hmon
          exact HooksSucceed.cons hd tl s s2 s' ⟨job, s1, hrun, hname, hmon⟩ (ih s2 h)
        · simp at h
        · simp at h
        · simp at h

theorem HookSucceeds_createdTemplates {σ : Type} (c : Client σ) (fuel : Nat)
    (curator : ClusterCurator) (jobType secret : String) (h : Hook) (s s' : State σ)
    (hs : HookSucceeds c fuel curator jobType secret h s s') :
    createdTemplates s'.log = createdTemplates s.log ++ [h.Name] := by
  obtain ⟨job, s1, hrun, _, hmon⟩ := hs
  obtain ⟨desc, hlog, hname⟩ := RunAnsibleJob_ok_log c curator jobType h secret s s1 job hrun
  have hm := MonitorAnsibleJob_createdTemplates c fuel job curator s1
  rw [hmon] at hm
  simp only at hm
  rw [hm, hlog, createdTemplates_append]
  simp [createdTemplates, hname]

theorem HooksSucceed_createdTemplates {σ : Type} (c : Client σ) (fuel : Nat)
    (curator : ClusterCurator) (jobType secret : String) (hooks : List Hook) (s s' : State σ)
    (hs : HooksSucceed c fuel curator jobType secret hooks s s') :
    createdTemplates s'.log = createdTemplates s.log ++ hooks.map Hook.Name := by
  induction hs with
  | nil s => simp
  | cons h tl s sa sb hh _ ih =>
    rw [ih, HookSucceeds_createdTemplates c fuel curator jobType secret h s sa hh]
    simp

theorem HookFails_createdTemplates {σ : Type} (c : Client σ) (fuel : Nat)
    (curator : ClusterCurator) (jobType secret : String) (h : Hook) (s s' : State σ)
    (err : Error) (hf : HookFails c fuel curator jobType secret h s err s') :
    createdTemplates s'.log = createdTemplates s.log ∨
      createdTemplates s'.log = createdTemplates s.log ++ [h.Name] := by
  rcases hf with hrun | ⟨job, s1, hrun, hname, hmon⟩
  · obtain ⟨evs, hl, hc⟩ := RunAnsibleJob_log c curator jobType h secret s
    rw [hrun] at hl
    simp only at hl
    rcases hc with hc | hc
    · left
      rw [hl, createdTemplates_append, hc, List.append_nil]
    · right
      rw [hl, createdTemplates_append, hc]
  · right
    obtain ⟨desc, hlog, hn⟩ := RunAnsibleJob_ok_log c curator jobType h secret s s1 job hrun
    have hm := MonitorAnsibleJob_createdTemplates c fuel job curator s1
    rw [hmon] at hm
    simp only at hm
    rw [hm, hlog, createdTemplates_append]
    simp [createdTemplates, hn]

/-- Whatever the outcome of the loop, the hooks run before its last one all
succeeded, and beyond their jobs at most the job of the next hook was created. -/
theorem runHooks_creates {σ : Type} (c : Client σ) (fuel : Nat) (curator : ClusterCurator)
    (jobType secret : String) (hooks : List Hook) (s : State σ) :
    ∃ pre rest s1, hooks = pre ++ rest ∧
      HooksSucceed c fuel curator jobType secret pre s s1 ∧
      (createdTemplates (runHooks c fuel curator jobType secret hooks s).2.log =
          createdTemplates s1.log ∨
        ∃ h post, rest = h :: post ∧
          createdTemplates (runHooks c fuel curator jobType secret hooks s).2.log =
            createdTemplates s1.log ++ [h.Name]) := by
  induction hooks generalizing s with
  | nil => exact ⟨[], [], s, rfl, HooksSucceed.nil s, Or.inl (by simp [runHooks])⟩
  | cons hd tl ih =>
    have hstop : ∀ s' : State σ,
        (createdTemplates s'.log = createdTemplates s.log ∨
          createdTemplates s'.log = createdTemplates s.log ++ [hd.Name]) →
        ∃ pre rest s1, hd :: tl = pre ++ rest ∧
          HooksSucceed c fuel curator jobType secret pre s s1 ∧
          (createdTemplates s'.log = createdTemplates s1.log ∨
            ∃ h post, rest = h :: post ∧
              createdTemplates s'.log = createdTemplates s1.log ++ [h.Name]) := by
      intro s' hs'
      refine ⟨[], hd :: tl, s, rfl, HooksSucceed.nil s, ?_⟩
      rcases hs' with h1 | h1
      · exact Or.inl h1
      · exact Or.inr ⟨hd, tl, rfl, h1⟩
    have hrunlog : createdTemplates (RunAnsibleJob c curator jobType hd secret s).2.log =
          createdTemplates s.log ∨
        createdTemplates (RunAnsibleJob c curator jobType hd secret s).2.log =
          createdTemplates s.log ++ [hd.Name] := by
      obtain ⟨evs, hl, hc⟩ := RunAnsibleJob_log c curator jobType hd secret s
      rcases hc with hc | hc
      · left
        rw [hl, createdTemplates_append, hc, List.append_nil]
      · right
        rw [hl, createdTemplates_append, hc]
    rw [runHooks]
    split
    · rename_i e s1 hrun
      rw [hrun] at hrunlog
      exact hstop s1 hrunlog
    · rename_i s1 hrun
      rw [hrun] at hrunlog
      exact hstop s1 hrunlog
    · rename_i err s1 hrun
      rw [hrun] at hrunlog
      exact hstop s1 hrunlog
    · rename_i job s1 hrun
      rw [hrun] at hrunlog
      simp only at hrunlog
      have hmon := MonitorAnsibleJob_createdTemplates c fuel job curator s1
      split
      · exact hstop s1 hrunlog
      · rename_i hname
        split
        · rename_i s2 hm
          have hsucc : HookSucceeds c fuel curator jobType secret hd s s2 :=
            ⟨job, s1, hrun, hname, hm⟩
          obtain ⟨pre, rest, s3, hsplit, hchain, hcr⟩ := ih s2
          exact ⟨hd :: pre, rest, s3, by simp [hsplit],
            HooksSucceed.cons hd pre s s2 s3 hsucc hchain, hcr⟩
        · rename_i err s2 hm
          rw [hm] at hmon
          simp only at hmon
          exact hstop s2 (by rw [hmon]; exact hrunlog)
        · rename_i e s2 hm
          rw [hm] at hmon
          simp only at hmon
          exact hstop s2 (by rw [hmon]; exact hrunlog)
        · rename_i s2 hm
          rw [hm] at hmon
          simp only at hmon
          exact hstop s2 (by rw [hmon]; exact hrunlog)

/-- C2: for a curator whose desired curation is install or upgrade and either
job type, `Job` runs the selected hooks strictly in list order, one at a time.
(1) `Job` returns nil exactly when every hook of the list, each started in the
state its predecessor's monitoring left, had its job created and monitored to
success. (2) If the hooks before hook `h` succeeded in that way and creating
or monitoring the job of `h` returns the error `err`, then `Job` returns
`err`, in the state of that return, and the jobs created are those of the
hooks before `h`, in list order, plus at most the one of `h`: none for a
later hook. (3) The jobs of a succeeded prefix were created one per hook in
list order. (4) Whatever the outcome, the run consists of a succeeded prefix
of the list and at most one more created job, the one of the next hook: the
job of a hook is created only after all earlier hooks succeeded. -/
theorem Job_hooks_sequential {σ : Type} (c : Client σ) (fuel : Nat) (jobType : String)
    (curator : ClusterCurator) (s : State σ)
    (hjt : jobType = PREHOOK ∨ jobType = POSTHOOK)
    (hcur : curator.Spec.DesiredCuration = "install" ∨ curator.Spec.DesiredCuration = "upgrade") :
    (∀ s', Job c fuel jobType curator s = (Res.ret none, s') ↔
      HooksSucceed c fuel curator jobType (towerAuthSecret curator)
        (hooksToRun curator jobType) s s') ∧
    (∀ pre h post s1 err s', hooksToRun curator jobType = pre ++ h :: post →
      HooksSucceed c fuel curator jobType (towerAuthSecret curator) pre s s1 →
      HookFails c fuel curator jobType (towerAuthSecret curator) h s1 err s' →
      Job c fuel jobType curator s = (Res.ret (some err), s') ∧
      (createdTemplates s'.log = createdTemplates s.log ++ pre.map Hook.Name ∨
        createdTemplates s'.log = createdTemplates s.log ++ (pre ++ [h]).map Hook.Name)) ∧
    (∀ pre post s1, hooksToRun curator jobType = pre ++ post →
      HooksSucceed c fuel curator jobType (towerAuthSecret curator) pre s s1 →
      createdTemplates s1.log = createdTemplates s.log ++ pre.map Hook.Name) ∧
    (∃ pre rest s1, hooksToRun curator jobType = pre ++ rest ∧
      HooksSucceed c fuel curator jobType (towerAuthSecret curator) pre s s1 ∧
      (createdTemplates (Job c fuel jobType curator s).2.log = createdTemplates s1.log ∨
        ∃ h post, rest = h :: post ∧
          createdTemplates (Job c fuel jobType curator s).2.log =
            createdTemplates s1.log ++ [h.Name])) := by
  rw [Job_eq_runHooks c fuel jobType curator s hjt hcur]
  refine ⟨?_, ?_, ?_, ?_⟩
  · intro s'
    constructor
    · exact HooksSucceed_of_runHooks c fuel curator jobType _ _ s s'
    · intro hs
      have := runHooks_append_of_succeed c fuel curator jobType (towerAuthSecret curator)
        (hooksToRun curator jobType) [] s s' hs
      rw [List.append_nil] at this
      rw [this, runHooks_nil]
  · intro pre h post s1 err s' hsplit hpre hfail
    constructor
    · rw [hsplit, runHooks_append_of_succeed c fuel curator jobType _ pre (h :: post) s s1 hpre]
      exact runHooks_of_fails c fuel curator jobType _ h post s1 s' err hfail
    · have hp := HooksSucceed_createdTemplates c fuel curator jobType _ pre s s1 hpre
      rcases HookFails_createdTemplates c fuel curator jobType _ h s1 s' err hfail with hf | hf
      · left
        rw [hf, hp]
      · right
        rw [hf, hp]
        simp
  · intro pre post s1 _ hpre
    exact HooksSucceed_createdTemplates c fuel curator jobType _ pre s s1 hpre
  · exact runHooks_creates c fuel curator jobType _ _ s

/-- Instance of `Job_hooks_sequential`: with posthooks A, B, C where the job of
B reports an error, `Job` returns that error and the jobs created are those of
A and B only. -/
theorem Job_hooks_sequential_witness :
    Job (scriptClient none []) 3 POSTHOOK threeHooks threeHooksScript.start =
      (Res.ret (some "AnsibleJob c1/job-b exited with an error"),
        (runHooks (scriptClient none []) 3 threeHooks POSTHOOK "toweraccess"
          [plainHook "A", plainHook "B"] threeHooksScript.start).2) ∧
    createdTemplates (runHooks (scriptClient none []) 3 threeHooks POSTHOOK "toweraccess"
      [plainHook "A", plainHook "B"] threeHooksScript.start).2.log = ["A", "B"] := by
  have hpre : HooksSucceed (scriptClient none []) 3 threeHooks POSTHOOK
      (towerAuthSecret threeHooks) [plainHook "A"] threeHooksScript.start
      (runHooks (scriptClient none []) 3 threeHooks POSTHOOK "toweraccess"
        [plainHook "A"] threeHooksScript.start).2 :=
    HooksSucceed_of_runHooks _ _ _ _ _ _ _ _ rfl
  have hfail : HookFails (scriptClient none []) 3 threeHooks POSTHOOK
      (towerAuthSecret threeHooks) (plainHook "B")
      (runHooks (scriptClient none []) 3 threeHooks POSTHOOK "toweraccess"
        [plainHook "A"] threeHooksScript.start).2
      "AnsibleJob c1/job-b exited with an error"
      (runHooks (scriptClient none []) 3 threeHooks POSTHOOK "toweraccess"
        [plainHook "A", plainHook "B"] threeHooksScript.start).2 :=
    Or.inr ⟨_, _, rfl, by decide, rfl⟩
  have h := (Job_hooks_sequential (scriptClient none []) 3 POSTHOOK threeHooks
    threeHooksScript.start (Or.inr rfl) (Or.inl rfl)).2.1 [plainHook "A"] (plainHook "B")
    [plainHook "C"] _ _ _ rfl hpre hfail
  exact ⟨h.1, rfl⟩

/-! ## The hook runner and the resumption marker (C3) -/

theorem monitorLoop_withOperation {σ : Type} (c : Client σ) (curator : ClusterCurator)
    (op : Option Operation) (ns name : String) (fuel : Nat) (s : State σ) :
    monitorLoop c (withOperation curator op) ns name fuel s =
      monitorLoop c curator ns name fuel s := by
  induction fuel generalizing s with
  | zero => simp [monitorLoop]
  | succ n ih =>
    rw [monitorLoop, monitorLoop]
    simp only [ih]
    rfl

theorem MonitorAnsibleJob_withOperation {σ : Type} (c : Client σ) (fuel : Nat)
    (jobResource : Obj) (curator : ClusterCurator) (op : Option Operation) (s : State σ) :
    MonitorAnsibleJob c fuel jobResource (withOperation curator op) s =
      MonitorAnsibleJob c fuel jobResource curator s := by
  unfold MonitorAnsibleJob
  simp only [monitorLoop_withOperation]
  rfl

theorem runHooks_withOperation {σ : Type} (c : Client σ) (fuel : Nat) (curator : ClusterCurator)
    (op : Option Operation) (jobType secret : String) (hooks : List Hook) (s : State σ) :
    runHooks c fuel (withOperation curator op) jobType secret hooks s =
      runHooks c fuel curator jobType secret hooks s := by
  induction hooks generalizing s with
  | nil => simp [runHooks]
  | cons hd tl ih =>
    rw [runHooks, runHooks]
    simp only [ih, MonitorAnsibleJob_withOperation]
    rfl

/-- The jobs created by the loop are those of an initial segment of its hook list. -/
theorem runHooks_creates_take {σ : Type} (c : Client σ) (fuel : Nat) (curator : ClusterCurator)
    (jobType secret : String) (hooks : List Hook) (s : State σ) :
    ∃ k, createdTemplates (runHooks c fuel curator jobType secret hooks s).2.log =
      createdTemplates s.log ++ (hooks.take k).map Hook.Name := by
  obtain ⟨pre, rest, s1, hsplit, hchain, hcr⟩ := runHooks_creates c fuel curator jobType secret hooks s
  have hp := HooksSucceed_createdTemplates c fuel curator jobType secret pre s s1 hchain
  rcases hcr with h | ⟨h, post, hrest, hc⟩
  · refine ⟨pre.length, ?_⟩
    rw [h, hp, hsplit]
    simp
  · refine ⟨pre.length + 1, ?_⟩
    rw [hc, hp, hsplit, hrest]
    simp [List.take_append_eq_append_take]

/-- C3 (as amended): `Job` does not consult `operation.retryPosthook`. Its
result, final state and log are the same whatever the `Operation` field holds,
and in the posthook phase the jobs it creates are those of an initial segment
of the configured posthook list: creation starts at the first posthook, so the
posthooks that precede the marked one are run again. -/
theorem Job_ignores_retryPosthook {σ : Type} (c : Client σ) (fuel : Nat) (jobType : String)
    (curator : ClusterCurator) (op : Option Operation) (s : State σ) :
    Job c fuel jobType (withOperation curator op) s = Job c fuel jobType curator s ∧
    ∃ k, createdTemplates (Job c fuel POSTHOOK (withOperation curator op) s).2.log =
      createdTemplates s.log ++ ((hooksToRun curator POSTHOOK).take k).map Hook.Name := by
  have hsame : ∀ jt, Job c fuel jt (withOperation curator op) s = Job c fuel jt curator s := by
    intro jt
    unfold Job
    have hsel : selectCuration (withOperation curator op) = selectCuration curator := rfl
    have hd : (withOperation curator op).Spec.DesiredCuration = curator.Spec.DesiredCuration := rfl
    simp only [hsel, hd, runHooks_withOperation]
  refine ⟨hsame jobType, ?_⟩
  rw [hsame POSTHOOK]
  by_cases hcur : curator.Spec.DesiredCuration = "install" ∨
      curator.Spec.DesiredCuration = "upgrade"
  · rw [Job_eq_runHooks c fuel POSTHOOK curator s (Or.inr rfl) hcur]
    exact runHooks_creates_take c fuel curator POSTHOOK _ _ s
  · refine ⟨0, ?_⟩
    have h1 : curator.Spec.DesiredCuration ≠ "install" := fun h => hcur (Or.inl h)
    have h2 : curator.Spec.DesiredCuration ≠ "upgrade" := fun h => hcur (Or.inr h)
    have hj := Job_unsupported c fuel POSTHOOK curator s (Or.inr rfl) h1 h2
    rw [hj]
    simp

/-- C3 fails as stated: with the marker naming posthook B, the posthook phase
still creates a job for posthook A, which precedes B in the list. -/
theorem Job_retryPosthook_creates_earlier_posthook :
    resumeAtB.Operation = some { RetryPosthook := "B" } ∧
    resumeAtB.Spec.Install.Posthook = [plainHook "A", plainHook "B"] ∧
    (Job (scriptClient none []) 3 POSTHOOK resumeAtB resumeScript.start).1 = Res.ret none ∧
    createdTemplates (Job (scriptClient none []) 3 POSTHOOK resumeAtB resumeScript.start).2.log =
      ["A", "B"] :=
  ⟨rfl, rfl, rfl, rfl⟩

/-! ## The job monitor: one poll (C4, C5, C6, C8) -/

theorem monitorLoop_fetch_error {σ : Type} (c : Client σ) (curator : ClusterCurator)
    (ns name : String) (fuel : Nat) (s s1 : State σ) (err : Error)
    (hget : clientGet c Kind.AnsibleJob ns name s = (Except.error err, s1)) :
    monitorLoop c curator ns name (fuel + 1) s = (Res.ret (some err), s1) := by
  rw [monitorLoop]
  simp only [hget]

theorem monitorLoop_poll_error {σ : Type} (c : Client σ) (curator : ClusterCurator)
    (ns name : String) (fuel : Nat) (s s1 : State σ) (jobResource : Obj) (err : Error)
    (hget : clientGet c Kind.AnsibleJob ns name s = (Except.ok jobResource, s1))
    (hpoll : inspectJob ns name jobResource = Poll.error err) :
    monitorLoop c curator ns name (fuel + 1) s = (Res.ret (some err), s1) := by
  rw [monitorLoop]
  simp only [hget, hpoll]

theorem monitorLoop_poll_panic {σ : Type} (c : Client σ) (curator : ClusterCurator)
    (ns name : String) (fuel : Nat) (s s1 : State σ) (jobResource : Obj) (e : Error)
    (hget : clientGet c Kind.AnsibleJob ns name s = (Except.ok jobResource, s1))
    (hpoll : inspectJob ns name jobResource = Poll.panic e) :
    monitorLoop c curator ns name (fuel + 1) s = (Res.panic e, s1) := by
  rw [monitorLoop]
  simp only [hget, hpoll]

theorem monitorLoop_poll_initializing {σ : Type} (c : Client σ) (curator : ClusterCurator)
    (ns name : String) (fuel : Nat) (s s1 : State σ) (jobResource : Obj)
    (hget : clientGet c Kind.AnsibleJob ns name s = (Except.ok jobResource, s1))
    (hpoll : inspectJob ns name jobResource = Poll.initializing) :
    monitorLoop c curator ns name (fuel + 1) s =
      monitorLoop c curator ns name fuel (sleep PauseFiveSeconds s1) := by
  rw [monitorLoop]
  simp only [hget, hpoll]

theorem monitorLoop_poll_running {σ : Type} (c : Client σ) (curator : ClusterCurator)
    (ns name : String) (fuel : Nat) (s s1 : State σ) (jobResource : Obj)
    (hget : clientGet c Kind.AnsibleJob ns name s = (Except.ok jobResource, s1))
    (hpoll : inspectJob ns name jobResource = Poll.running) :
    monitorLoop c curator ns name (fuel + 1) s =
      monitorLoop c curator ns name fuel (sleep PauseFiveSeconds s1) := by
  rw [monitorLoop]
  simp only [hget, hpoll]

theorem monitorLoop_poll_successful {σ : Type} (c : Client σ) (curator : ClusterCurator)
    (ns name : String) (fuel : Nat) (s s1 : State σ) (jobResource : Obj)
    (hget : clientGet c Kind.AnsibleJob ns name s = (Except.ok jobResource, s1))
    (hpoll : inspectJob ns name jobResource = Poll.successful) :
    monitorLoop c curator ns name (fuel + 1) s =
      ((match (recordCurrentStatusCondition c curator.Namespace "current-ansiblejob"
          ConditionStatus.True (GetName jobResource) s1).1 with
        | some e => Res.panic e
        | none => Res.ret none),
       (recordCurrentStatusCondition c curator.Namespace "current-ansiblejob"
          ConditionStatus.True (GetName jobResource) s1).2) := by
  rw [monitorLoop]
  simp only [hget, hpoll]
  cases h : (recordCurrentStatusCondition c curator.Namespace "current-ansiblejob"
      ConditionStatus.True (GetName jobResource) s1).1 <;> simp [CheckError, h]

theorem isNil_obj (m : Obj) : isNil (Value.obj m) = false := rfl

theorem isNil_null : isNil Value.null = true := rfl

theorem eqStr_str (t lit : String) : eqStr (Value.str t) lit = (t == lit) := rfl

/-- A job without status is initializing. -/
theorem inspectJob_no_status (ns name : String) (jobResource : Obj)
    (h : index jobResource "status" = Value.null) :
    inspectJob ns name jobResource = Poll.initializing := by
  simp [inspectJob, h, isNil_null]

/-- A job whose status has no conditions entry is initializing, whatever else
the status holds. -/
theorem inspectJob_no_conditions (ns name : String) (jobResource jos : Obj)
    (hstatus : index jobResource "status" = Value.obj jos)
    (hconds : index jos "conditions" = Value.null) :
    inspectJob ns name jobResource = Poll.initializing := by
  simp [inspectJob, hstatus, isNil_obj, asMap_obj, hconds, isNil_null]

theorem inspectJob_result_error (ns name : String) (jobResource jos result : Obj)
    (hstatus : index jobResource "status" = Value.obj jos)
    (hconds : isNil (index jos "conditions") = false)
    (hresult : index jos "ansibleJobResult" = Value.obj result)
    (herr : index result "status" = Value.str "error") :
    inspectJob ns name jobResource =
      Poll.error ("AnsibleJob " ++ ns ++ "/" ++ name ++ " exited with an error") := by
  simp [inspectJob, hstatus, isNil_obj, asMap_obj, hconds, hresult, herr, eqStr_str]

theorem inspectJob_result_successful (ns name : String) (jobResource jos result : Obj)
    (hstatus : index jobResource "status" = Value.obj jos)
    (hconds : isNil (index jos "conditions") = false)
    (hresult : index jos "ansibleJobResult" = Value.obj result)
    (hok : index result "status" = Value.str "successful") :
    inspectJob ns name jobResource = Poll.successful := by
  simp [inspectJob, hstatus, isNil_obj, asMap_obj, hconds, hresult, hok, eqStr_str]

theorem clientGet_log {σ : Type} (c : Client σ) (kind : Kind) (ns name : String)
    (s s1 : State σ) (r : Except Error Obj) (hget : clientGet c kind ns name s = (r, s1)) :
    s1.log = s.log ++ [Event.get kind ns name] := by
  simp only [clientGet, Prod.mk.injEq] at hget
  rw [← hget.2]

/-- C4 (as amended): at every poll of the monitoring loop whose fetched job
has a status holding a conditions entry (a list, possibly empty, with or
without a condition of reason Failed) and reporting
`ansibleJobResult.status == "error"`, the loop returns at that poll, after the
fetch alone (no sleep, no further fetch), the error "AnsibleJob
<namespace>/<name> exited with an error" naming the monitored job. A status
without a conditions entry is excluded: such a poll is treated as
initializing. -/
theorem MonitorAnsibleJob_result_error {σ : Type} (c : Client σ) (curator : ClusterCurator)
    (ns name : String) (fuel : Nat) (s s1 : State σ) (jobResource jos result : Obj)
    (hget : clientGet c Kind.AnsibleJob ns name s = (Except.ok jobResource, s1))
    (hstatus : index jobResource "status" = Value.obj jos)
    (hconds : isNil (index jos "conditions") = false)
    (hresult : index jos "ansibleJobResult" = Value.obj result)
    (herr : index result "status" = Value.str "error") :
    monitorLoop c curator ns name (fuel + 1) s =
      (Res.ret (some ("AnsibleJob " ++ ns ++ "/" ++ name ++ " exited with an error")), s1) ∧
    s1.log = s.log ++ [Event.get Kind.AnsibleJob ns name] :=
  ⟨monitorLoop_poll_error c curator ns name fuel s s1 jobResource _ hget
      (inspectJob_result_error ns name jobResource jos result hstatus hconds hresult herr),
    clientGet_log c _ ns name s s1 _ hget⟩

/-- Instance of `MonitorAnsibleJob_result_error`: a first poll reporting
`error` next to an empty conditions list ends the loop with the error naming
job `c1/job-a`, the log holding the one fetch. -/
theorem MonitorAnsibleJob_result_error_witness :
    monitorLoop (scriptClient none []) plainCurator "c1" "job-a" 1
        (scriptOf [] [Except.ok (fetchedJob "c1" "job-a" statusError)]).start =
      (Res.ret (some ("AnsibleJob " ++ "c1" ++ "/" ++ "job-a" ++ " exited with an error")),
        { world := scriptOf [] [], log := [Event.get Kind.AnsibleJob "c1" "job-a"] }) ∧
    ({ world := scriptOf [] [], log := [Event.get Kind.AnsibleJob "c1" "job-a"] } :
        State Script).log =
      (scriptOf [] [Except.ok (fetchedJob "c1" "job-a" statusError)]).start.log ++
        [Event.get Kind.AnsibleJob "c1" "job-a"] :=
  MonitorAnsibleJob_result_error (scriptClient none []) plainCurator "c1" "job-a" 0
    (scriptOf [] [Except.ok (fetchedJob "c1" "job-a" statusError)]).start
    { world := scriptOf [] [], log := [Event.get Kind.AnsibleJob "c1" "job-a"] }
    (fetchedJob "c1" "job-a" statusError)
    [("conditions", Value.arr []),
      ("ansibleJobResult", Value.obj [("status", Value.str "error")])]
    [("status", Value.str "error")] rfl rfl rfl rfl rfl

/-- C4 fails as stated: a poll whose status reports result status `error` and
carries no conditions at all does not end the monitoring; the loop sleeps and
polls again, and here the run ends in success at the second poll. -/
theorem MonitorAnsibleJob_error_without_conditions_continues :
    inspectJob "c1" "job-a" (fetchedJob "c1" "job-a" statusErrorNoConditions) =
      Poll.initializing ∧
    MonitorAnsibleJob (scriptClient none []) 2 (fetchedJob "c1" "job-a" Value.null) plainCurator
        (scriptOf [] [Except.ok (fetchedJob "c1" "job-a" statusErrorNoConditions),
          Except.ok (fetchedJob "c1" "job-a" statusSuccessful)]).start =
      (Res.ret none,
        { world := scriptOf [] [],
          log := [Event.record "c1" "current-ansiblejob" ConditionStatus.False "job-a",
            Event.get Kind.AnsibleJob "c1" "job-a", Event.sleep 5,
            Event.get Kind.AnsibleJob "c1" "job-a",
            Event.record "c1" "current-ansiblejob" ConditionStatus.True "job-a"] }) :=
  ⟨rfl, rfl⟩

/-- C8: if the fetch of the job fails at a poll, the loop returns exactly that
error at that poll; the only call of the poll is the failed fetch (it is not
retried, no sleep and no further poll follow, no condition is recorded). -/
theorem MonitorAnsibleJob_fetch_error {σ : Type} (c : Client σ) (curator : ClusterCurator)
    (ns name : String) (fuel : Nat) (s : State σ) (err : Error)
    (hget : (c.Get s.world Kind.AnsibleJob ns name).1 = Except.error err) :
    monitorLoop c curator ns name (fuel + 1) s =
      (Res.ret (some err),
        { world := (c.Get s.world Kind.AnsibleJob ns name).2,
          log := s.log ++ [Event.get Kind.AnsibleJob ns name] }) := by
  apply monitorLoop_fetch_error
  simp only [clientGet, hget]

/-- Instance of `MonitorAnsibleJob_fetch_error`: the job is gone at the first poll. -/
theorem MonitorAnsibleJob_fetch_error_witness :
    monitorLoop (scriptClient none []) plainCurator "c1" "job-a" 3
        (scriptOf [] [Except.error "ansiblejobs job-a not found"]).start =
      (Res.ret (some "ansiblejobs job-a not found"),
        { world := scriptOf [] [], log := [Event.get Kind.AnsibleJob "c1" "job-a"] }) :=
  MonitorAnsibleJob_fetch_error (scriptClient none []) plainCurator "c1" "job-a" 2
    (scriptOf [] [Except.error "ansiblejobs job-a not found"]).start
    "ansiblejobs job-a not found" rfl

theorem logK8sJob_of_wellTyped (jos : Obj) (h : K8sJobWellTyped jos) :
    logK8sJob jos = true := by
  rcases h with h | ⟨k, n, hk, hn⟩
  · simp [logK8sJob, h, isNil_null]
  · simp [logK8sJob, hk, isNil_obj, asMap_obj, hn, asString_str]

theorem scanConditions_first_failed (pre post : List Value) (failed : Obj) (msg : String)
    (hpre : ∀ x ∈ pre, NotFailed x)
    (hreason : index failed "reason" = Value.str "Failed")
    (hmsg : index failed "message" = Value.str msg) :
    scanConditions (pre ++ Value.obj failed :: post) = Poll.error msg := by
  induction pre with
  | nil => simp [scanConditions, asMap_obj, hreason, hmsg, eqStr_str, asString_str]
  | cons x rest ih =>
    obtain ⟨m, hx, hr⟩ := hpre x (List.mem_cons_self _ _)
    subst hx
    simp only [List.cons_append, scanConditions, asMap_obj, hr]
    exact ih (fun y hy => hpre y (List.mem_cons_of_mem _ hy))

theorem scanConditions_none_failed (conditions : List Value)
    (h : ∀ x ∈ conditions, NotFailed x) : scanConditions conditions = Poll.running := by
  induction conditions with
  | nil => rfl
  | cons x rest ih =>
    obtain ⟨m, hx, hr⟩ := h x (List.mem_cons_self _ _)
    subst hx
    simp only [scanConditions, asMap_obj, hr]
    exact ih (fun y hy => h y (List.mem_cons_of_mem _ hy))

/-- Without a terminal result status, the poll is decided by the log statement
on `k8sJob` and the scan of the conditions. -/
theorem inspectJob_no_result (ns name : String) (jobResource jos : Obj)
    (hstatus : index jobResource "status" = Value.obj jos)
    (hconds : isNil (index jos "conditions") = false)
    (hres : NoResultStatus jos) :
    inspectJob ns name jobResource = inspectConditions jos := by
  rcases hres with h | ⟨result, h, h1, h2⟩
  · simp [inspectJob, hstatus, isNil_obj, asMap_obj, hconds, h, isNil_null]
  · simp [inspectJob, hstatus, isNil_obj, asMap_obj, hconds, h, h1, h2]

/-- C5 (as amended): at every poll whose fetched job has a status without
terminal result status (`ansibleJobResult` absent, or a mapping whose status is
neither successful nor error), whose `k8sJob` entry is absent or a mapping
holding a string `namespacedName`, and whose `conditions` list holds a first
condition of reason "Failed" that carries a string message, all entries before
it being mappings, the loop returns at that poll an error whose message is
exactly the message of that condition. -/
theorem MonitorAnsibleJob_failed_condition {σ : Type} (c : Client σ) (curator : ClusterCurator)
    (ns name : String) (fuel : Nat) (s s1 : State σ) (jobResource jos failed : Obj)
    (pre post : List Value) (msg : String)
    (hget : clientGet c Kind.AnsibleJob ns name s = (Except.ok jobResource, s1))
    (hstatus : index jobResource "status" = Value.obj jos)
    (hres : NoResultStatus jos)
    (hk8s : K8sJobWellTyped jos)
    (hconds : index jos "conditions" = Value.arr (pre ++ Value.obj failed :: post))
    (hpre : ∀ x ∈ pre, NotFailed x)
    (hreason : index failed "reason" = Value.str "Failed")
    (hmsg : index failed "message" = Value.str msg) :
    monitorLoop c curator ns name (fuel + 1) s = (Res.ret (some msg), s1) ∧
    s1.log = s.log ++ [Event.get Kind.AnsibleJob ns name] := by
  refine ⟨?_, clientGet_log c _ ns name s s1 _ hget⟩
  apply monitorLoop_poll_error c curator ns name fuel s s1 jobResource msg hget
  rw [inspectJob_no_result ns name jobResource jos hstatus (by rw [hconds]; rfl) hres]
  simp only [inspectConditions, logK8sJob_of_wellTyped jos hk8s, if_true, hconds, asList_arr]
  exact scanConditions_first_failed pre post failed msg hpre hreason hmsg

/-- Instance of `MonitorAnsibleJob_failed_condition`: the message returned is
the one of the first condition of reason Failed. -/
theorem MonitorAnsibleJob_failed_condition_witness :
    monitorLoop (scriptClient none []) plainCurator "c1" "job-a" 1
        (scriptOf [] [Except.ok (fetchedJob "c1" "job-a" statusTwoFailed)]).start =
      (Res.ret (some "playbook failed"),
        { world := scriptOf [] [], log := [Event.get Kind.AnsibleJob "c1" "job-a"] }) :=
  (MonitorAnsibleJob_failed_condition (scriptClient none []) plainCurator "c1" "job-a" 0
    (scriptOf [] [Except.ok (fetchedJob "c1" "job-a" statusTwoFailed)]).start
    { world := scriptOf [] [], log := [Event.get Kind.AnsibleJob "c1" "job-a"] }
    (fetchedJob "c1" "job-a" statusTwoFailed)
    [("conditions", Value.arr
      [Value.obj [("reason", Value.str "Running"),
        ("message", Value.str "Running reconciliation")],
       Value.obj [("reason", Value.str "Failed"), ("message", Value.str "playbook failed")],
       Value.obj [("reason", Value.str "Failed"), ("message", Value.str "second failure")]])]
    [("reason", Value.str "Failed"), ("message", Value.str "playbook failed")]
    [Value.obj [("reason", Value.str "Running"),
      ("message", Value.str "Running reconciliation")]]
    [Value.obj [("reason", Value.str "Failed"), ("message", Value.str "second failure")]]
    "playbook failed" rfl rfl (Or.inl rfl) (Or.inl rfl) rfl
    (by
      intro x hx
      rw [List.mem_singleton.mp hx]
      exact ⟨_, rfl, rfl⟩)
    rfl rfl).1

/-- C5 fails as stated: the status has no result status and its conditions
hold a condition of reason Failed with a message, yet the poll does not return
that message as an error: the log statement on `k8sJob` panics first. -/
theorem MonitorAnsibleJob_failed_condition_panics :
    monitorLoop (scriptClient none []) plainCurator "c1" "job-a" 1
        (scriptOf [] [Except.ok (fetchedJob "c1" "job-a" statusFailedBareK8sJob)]).start =
      (Res.panic interfaceConversion,
        { world := scriptOf [] [], log := [Event.get Kind.AnsibleJob "c1" "job-a"] }) :=
  rfl

theorem inspectJob_skipped (ns name : String) (jobResource : Obj) (h : Skipped jobResource) :
    inspectJob ns name jobResource = Poll.initializing ∨
      inspectJob ns name jobResource = Poll.running := by
  rcases h with h | ⟨jos, hstatus, h | ⟨conditions, hconds, hres, hk8s, hall⟩⟩
  · exact Or.inl (inspectJob_no_status ns name jobResource h)
  · exact Or.inl (inspectJob_no_conditions ns name jobResource jos hstatus h)
  · right
    rw [inspectJob_no_result ns name jobResource jos hstatus (by rw [hconds]; rfl) hres]
    simp only [inspectConditions, logK8sJob_of_wellTyped jos hk8s, if_true, hconds, asList_arr]
    exact scanConditions_none_failed conditions hall

theorem monitorLoop_skipped {σ : Type} (c : Client σ) (curator : ClusterCurator)
    (ns name : String) (fuel : Nat) (s s1 : State σ) (jobResource : Obj)
    (hget : clientGet c Kind.AnsibleJob ns name s = (Except.ok jobResource, s1))
    (hskip : Skipped jobResource) :
    monitorLoop c curator ns name (fuel + 1) s =
      monitorLoop c curator ns name fuel (sleep PauseFiveSeconds s1) := by
  rcases inspectJob_skipped ns name jobResource hskip with h | h
  · exact monitorLoop_poll_initializing c curator ns name fuel s s1 jobResource hget h
  · exact monitorLoop_poll_running c curator ns name fuel s s1 jobResource hget h

theorem monitorLoop_script_skipped (recordErr : Option Error) (decodes : List (String × Obj))
    (curator : ClusterCurator) (ns name : String) (skipped : List Obj)
    (rest : List (Except Error Obj)) (w : Script) (log : List Event) (n : Nat)
    (hall : ∀ j ∈ skipped, Skipped j) :
    monitorLoop (scriptClient recordErr decodes) curator ns name (skipped.length + n)
        { world := { w with polls := skipped.map Except.ok ++ rest }, log := log } =
      monitorLoop (scriptClient recordErr decodes) curator ns name n
        { world := { w with polls := rest },
          log := log ++ skippedPolls ns name skipped.length } := by
  induction skipped generalizing log with
  | nil => simp [skippedPolls]
  | cons j tl ih =>
    have hlen : (j :: tl).length + n = (tl.length + n) + 1 := by
      simp only [List.length_cons]
      omega
    have hget : clientGet (scriptClient recordErr decodes) Kind.AnsibleJob ns name
        (State.mk (Script.mk w.clusterDeployment w.machinePool w.names
          ((j :: tl).map Except.ok ++ rest)) log) =
        (Except.ok j, State.mk (Script.mk w.clusterDeployment w.machinePool w.names
          (tl.map Except.ok ++ rest)) (log ++ [Event.get Kind.AnsibleJob ns name])) := rfl
    rw [hlen, monitorLoop_skipped (scriptClient recordErr decodes) curator ns name
      (tl.length + n) _ _ j hget (hall j (List.mem_cons_self _ _))]
    have := ih (log ++ [Event.get Kind.AnsibleJob ns name] ++ [Event.sleep PauseFiveSeconds])
      (fun x hx => hall x (List.mem_cons_of_mem _ hx))
    simp only [sleep]
    rw [this]
    simp [skippedPolls]

/-- C6 (as amended): a poll whose job has no status yields neither success nor
error, and the outcome of the loop is the outcome of monitoring the remaining
polls, after a sleep. The same holds for every skipped poll: one whose status
has no conditions entry (whatever result status it reports), or whose
well-typed status has no successful/error result status and no condition of
reason Failed. Over a script of successive poll answers that starts with `k`
skipped polls, the outcome is the outcome of the loop on the answers after
them: the outcome is decided by the first poll that is not skipped. -/
theorem MonitorAnsibleJob_skips_polls {σ : Type} (c : Client σ) (curator : ClusterCurator)
    (ns name : String) (fuel : Nat) (s s1 : State σ) (jobResource : Obj)
    (hget : clientGet c Kind.AnsibleJob ns name s = (Except.ok jobResource, s1))
    (hskip : Skipped jobResource) :
    monitorLoop c curator ns name (fuel + 1) s =
      monitorLoop c curator ns name fuel (sleep PauseFiveSeconds s1) ∧
    ∀ (recordErr : Option Error) (decodes : List (String × Obj)) (skipped : List Obj)
      (rest : List (Except Error Obj)) (w : Script) (log : List Event) (n : Nat),
      (∀ j ∈ skipped, Skipped j) →
      monitorLoop (scriptClient recordErr decodes) curator ns name (skipped.length + n)
          { world := { w with polls := skipped.map Except.ok ++ rest }, log := log } =
        monitorLoop (scriptClient recordErr decodes) curator ns name n
          { world := { w with polls := rest },
            log := log ++ skippedPolls ns name skipped.length } :=
  ⟨monitorLoop_skipped c curator ns name fuel s s1 jobResource hget hskip,
    fun recordErr decodes skipped rest w log n hall =>
      monitorLoop_script_skipped recordErr decodes curator ns name skipped rest w log n hall⟩

/-- Instance of `MonitorAnsibleJob_skips_polls`: the first poll has no status,
the second reports success; the outcome is the one of the second poll. -/
theorem MonitorAnsibleJob_skips_polls_witness :
    monitorLoop (scriptClient none []) plainCurator "c1" "job-a" 2
        (scriptOf [] [Except.ok (fetchedJob "c1" "job-a" Value.null),
          Except.ok (fetchedJob "c1" "job-a" statusSuccessful)]).start =
      (Res.ret none,
        { world := scriptOf [] [],
          log := [Event.get Kind.AnsibleJob "c1" "job-a", Event.sleep 5,
            Event.get Kind.AnsibleJob "c1" "job-a",
            Event.record "c1" "current-ansiblejob" ConditionStatus.True "job-a"] }) :=
  ((MonitorAnsibleJob_skips_polls (scriptClient none []) plainCurator "c1" "job-a" 1
    (scriptOf [] [Except.ok (fetchedJob "c1" "job-a" Value.null),
      Except.ok (fetchedJob "c1" "job-a" statusSuccessful)]).start
    { world := scriptOf [] [Except.ok (fetchedJob "c1" "job-a" statusSuccessful)],
      log := [Event.get Kind.AnsibleJob "c1" "job-a"] }
    (fetchedJob "c1" "job-a" Value.null) rfl (Or.inl rfl)).1).trans rfl

/-- C6 fails as stated: the first poll carries a terminal signal (result status
`successful`), yet it is passed over because its status has no conditions
entry, and the outcome is the failure of the second poll. -/
theorem MonitorAnsibleJob_outcome_not_of_first_signal :
    monitorLoop (scriptClient none []) plainCurator "c1" "job-a" 2
        (scriptOf [] [Except.ok (fetchedJob "c1" "job-a" statusSuccessfulNoConditions),
          Except.ok (fetchedJob "c1" "job-a" statusFailed)]).start =
      (Res.ret (some "playbook failed"),
        { world := scriptOf [] [],
          log := [Event.get Kind.AnsibleJob "c1" "job-a", Event.sleep 5,
            Event.get Kind.AnsibleJob "c1" "job-a"] }) :=
  rfl

/-! ## The job monitor: the `current-ansiblejob` condition (C7) -/

theorem eqStr_eq_true (v : Value) (lit : String) (h : eqStr v lit = true) :
    v = Value.str lit := by
  cases v <;> simp_all [eqStr]

theorem scanConditions_ne_successful (conditions : List Value) :
    scanConditions conditions ≠ Poll.successful := by
  induction conditions with
  | nil => simp [scanConditions]
  | cons x rest ih =>
    rw [scanConditions]
    split
    · simp
    · split
      · split <;> simp
      · exact ih

theorem inspectConditions_ne_successful (jos : Obj) :
    inspectConditions jos ≠ Poll.successful := by
  unfold inspectConditions
  split
  · split
    · simp
    · exact scanConditions_ne_successful _
  · simp

theorem asMap_eq_some (v : Value) (m : Obj) (h : asMap v = some m) :
    v = Value.obj m ∨ (v = Value.nilMap ∧ m = []) := by
  cases v <;> simp_all [asMap]

theorem inspectJob_successful_iff (ns name : String) (jobResource : Obj) :
    inspectJob ns name jobResource = Poll.successful ↔ ReportsSuccessful jobResource := by
  constructor
  · intro h
    unfold inspectJob at h
    split at h
    · simp at h
    · split at h
      · simp at h
      · rename_i jos hjos
        split at h
        · simp at h
        · rename_i hconds
          split at h
          · exact absurd h (inspectConditions_ne_successful jos)
          · split at h
            · simp at h
            · rename_i result hresult
              split at h
              · rename_i hok
                rcases asMap_eq_some _ _ hjos with hj | ⟨_, hj⟩
                · rcases asMap_eq_some _ _ hresult with hr | ⟨_, hr⟩
                  · exact ⟨jos, result, hj, by simpa using hconds, hr, eqStr_eq_true _ _ hok⟩
                  · subst hr
                    simp [index_nil, eqStr] at hok
                · subst hj
                  simp [index_nil, isNil] at hconds
              · split at h
                · simp at h
                · exact absurd h (inspectConditions_ne_successful jos)
  · rintro ⟨jos, result, hstatus, hconds, hresult, hok⟩
    exact inspectJob_result_successful ns name jobResource jos result hstatus hconds hresult hok

theorem filterMap_recorded_quiet (t : String) (evs : List Event)
    (h : ∀ e ∈ evs, e.isQuiet = true) : evs.filterMap (Event.recorded t) = [] := by
  induction evs with
  | nil => rfl
  | cons e rest ih =>
    have hrest := ih (fun x hx => h x (List.mem_cons_of_mem _ hx))
    have he := h e (List.mem_cons_self _ _)
    cases e <;> simp_all [Event.recorded, Event.isQuiet, Event.isGet, Event.isSleep]

/-- A poll that does not report success records nothing: it ends the loop
without success in the state of its fetch, or the loop goes on after a sleep. -/
theorem monitorLoop_poll_not_successful {σ : Type} (c : Client σ) (curator : ClusterCurator)
    (ns name : String) (fuel : Nat) (s s1 : State σ) (jobResource : Obj)
    (hget : clientGet c Kind.AnsibleJob ns name s = (Except.ok jobResource, s1))
    (hnot : ¬ ReportsSuccessful jobResource) :
    (∃ r, r ≠ Res.ret none ∧ monitorLoop c curator ns name (fuel + 1) s = (r, s1)) ∨
    monitorLoop c curator ns name (fuel + 1) s =
      monitorLoop c curator ns name fuel (sleep PauseFiveSeconds s1) := by
  have hne : inspectJob ns name jobResource ≠ Poll.successful :=
    fun h => hnot ((inspectJob_successful_iff ns name jobResource).mp h)
  cases hp : inspectJob ns name jobResource with
  | initializing =>
    exact Or.inr (monitorLoop_poll_initializing c curator ns name fuel s s1 jobResource hget hp)
  | running =>
    exact Or.inr (monitorLoop_poll_running c curator ns name fuel s s1 jobResource hget hp)
  | successful => exact absurd hp hne
  | error err =>
    exact Or.inl ⟨Res.ret (some err), by simp,
      monitorLoop_poll_error c curator ns name fuel s s1 jobResource err hget hp⟩
  | panic e =>
    exact Or.inl ⟨Res.panic e, by simp,
      monitorLoop_poll_panic c curator ns name fuel s s1 jobResource e hget hp⟩

theorem lastRecorded_after_false (curator : ClusterCurator) (log evs : List Event)
    (name : String) (h : ∀ e ∈ evs, e.isQuiet = true) :
    lastRecorded "current-ansiblejob" (log ++ Event.record curator.Namespace
      "current-ansiblejob" ConditionStatus.False name :: evs) = some ConditionStatus.False := by
  unfold lastRecorded
  rw [List.filterMap_append, List.filterMap_cons]
  simp only [Event.recorded, if_true, filterMap_recorded_quiet _ evs h]
  simp

theorem lastRecorded_after_true (curator : ClusterCurator) (log evs0 : List Event)
    (name name' : String) :
    lastRecorded "current-ansiblejob" (log ++ Event.record curator.Namespace
      "current-ansiblejob" ConditionStatus.False name :: (evs0 ++
        [Event.record curator.Namespace "current-ansiblejob" ConditionStatus.True name'])) =
      some ConditionStatus.True := by
  have hlast : ∀ (x a : ConditionStatus) (l : List ConditionStatus),
      (x :: (l ++ [a])).getLast? = some a := by
    intro x a l
    exact List.getLast?_concat (x :: l)
  unfold lastRecorded
  rw [← List.cons_append, ← List.append_assoc, List.filterMap_append]
  simp [Event.recorded, hlast]

/-- C7 (as amended). For every run of `MonitorAnsibleJob`: (1) the first call
it issues is the record of `current-ansiblejob` with status False and the
job's name, before any fetch; what follows is fetches and sleeps, closed, in a
run that ends in success or in a panic of the recorder, by one record of the
same type with status True. (2) On a run that returns an error no True record
is written (the calls after the False record are fetches and sleeps only), so
the status last recorded for `current-ansiblejob` is False. (3) A run that
returns nil leaves True as the last recorded status. (4) At each poll, the
True record, with the fetched job's name, is written exactly when the fetched
job reports result status successful in a status that holds a conditions
entry, after which the loop returns nil (it panics when the recorder fails);
any other poll records nothing. -/
theorem MonitorAnsibleJob_current_job_condition {σ : Type} (c : Client σ) (fuel : Nat)
    (jobResource : Obj) (curator : ClusterCurator) (s : State σ) :
    (∃ evs, (MonitorAnsibleJob c fuel jobResource curator s).2.log =
        s.log ++ Event.record curator.Namespace "current-ansiblejob" ConditionStatus.False
          (GetName jobResource) :: evs ∧
      MonitorTrace curator (MonitorAnsibleJob c fuel jobResource curator s).1 evs) ∧
    (∀ err, (MonitorAnsibleJob c fuel jobResource curator s).1 = Res.ret (some err) →
      (∃ evs, (MonitorAnsibleJob c fuel jobResource curator s).2.log =
          s.log ++ Event.record curator.Namespace "current-ansiblejob" ConditionStatus.False
            (GetName jobResource) :: evs ∧ ∀ e ∈ evs, e.isQuiet = true) ∧
      lastRecorded "current-ansiblejob" (MonitorAnsibleJob c fuel jobResource curator s).2.log =
        some ConditionStatus.False) ∧
    ((MonitorAnsibleJob c fuel jobResource curator s).1 = Res.ret none →
      lastRecorded "current-ansiblejob" (MonitorAnsibleJob c fuel jobResource curator s).2.log =
        some ConditionStatus.True) ∧
    (∀ (ns name : String) (n : Nat) (s0 s1 : State σ) (fetched : Obj),
      clientGet c Kind.AnsibleJob ns name s0 = (Except.ok fetched, s1) →
      (ReportsSuccessful fetched →
        monitorLoop c curator ns name (n + 1) s0 =
          ((match (recordCurrentStatusCondition c curator.Namespace "current-ansiblejob"
              ConditionStatus.True (GetName fetched) s1).1 with
            | some e => Res.panic e
            | none => Res.ret none),
           (recordCurrentStatusCondition c curator.Namespace "current-ansiblejob"
              ConditionStatus.True (GetName fetched) s1).2)) ∧
      (¬ ReportsSuccessful fetched →
        (∃ r, r ≠ Res.ret none ∧ monitorLoop c curator ns name (n + 1) s0 = (r, s1)) ∨
        monitorLoop c curator ns name (n + 1) s0 =
          monitorLoop c curator ns name n (sleep PauseFiveSeconds s1))) := by
  obtain ⟨evs, hlog, htrace⟩ := MonitorAnsibleJob_log c fuel jobResource curator s
  refine ⟨⟨evs, hlog, htrace⟩, ?_, ?_, ?_⟩
  · intro err herr
    rcases htrace with ⟨hq, _⟩ | ⟨evs0, nm, _, _, hr⟩
    · exact ⟨⟨evs, hlog, hq⟩, by rw [hlog]; exact lastRecorded_after_false curator _ evs _ hq⟩
    · rw [herr] at hr
      rcases hr with hr | ⟨e, hr⟩ <;> simp at hr
  · intro hnil
    rcases htrace with ⟨_, hne⟩ | ⟨evs0, nm, heq, _, _⟩
    · exact absurd hnil hne
    · rw [hlog, heq]
      exact lastRecorded_after_true curator _ evs0 _ nm
  · intro ns name n s0 s1 fetched hget
    constructor
    · intro hs
      exact monitorLoop_poll_successful c curator ns name n s0 s1 fetched hget
        ((inspectJob_successful_iff ns name fetched).mpr hs)
    · intro hnot
      exact monitorLoop_poll_not_successful c curator ns name n s0 s1 fetched hget hnot

/-- Instance of `MonitorAnsibleJob_current_job_condition`: the job reports
success at its first poll; the True record follows the fetch and the run
returns nil. -/
theorem MonitorAnsibleJob_current_job_condition_witness :
    monitorLoop (scriptClient none []) plainCurator "c1" "job-a" 1
        (scriptOf [] [Except.ok (fetchedJob "c1" "job-a" statusSuccessful)]).start =
      (Res.ret none,
        { world := scriptOf [] [],
          log := [Event.get Kind.AnsibleJob "c1" "job-a",
            Event.record "c1" "current-ansiblejob" ConditionStatus.True "job-a"] }) :=
  ((MonitorAnsibleJob_current_job_condition (scriptClient none []) 1
      (fetchedJob "c1" "job-a" Value.null) plainCurator
      (scriptOf [] [Except.ok (fetchedJob "c1" "job-a" statusSuccessful)]).start).2.2.2
    "c1" "job-a" 0 (scriptOf [] [Except.ok (fetchedJob "c1" "job-a" statusSuccessful)]).start
    { world := scriptOf [] [], log := [Event.get Kind.AnsibleJob "c1" "job-a"] }
    (fetchedJob "c1" "job-a" statusSuccessful) rfl).1
    ⟨[("conditions", Value.arr []),
        ("ansibleJobResult", Value.obj [("status", Value.str "successful")])],
      [("status", Value.str "successful")], rfl, rfl, rfl, rfl⟩

/-- C7 fails as stated: the first poll reports result status `successful`, but
in a status without conditions entry; no True record is written for it, and
the run ends with the fetch error of the second poll. -/
theorem MonitorAnsibleJob_successful_poll_not_recorded :
    MonitorAnsibleJob (scriptClient none []) 2 (fetchedJob "c1" "job-a" Value.null) plainCurator
        (scriptOf [] [Except.ok (fetchedJob "c1" "job-a" statusSuccessfulNoConditions),
          Except.error "ansiblejobs job-a not found"]).start =
      (Res.ret (some "ansiblejobs job-a not found"),
        { world := scriptOf [] [],
          log := [Event.record "c1" "current-ansiblejob" ConditionStatus.False "job-a",
            Event.get Kind.AnsibleJob "c1" "job-a", Event.sleep 5,
            Event.get Kind.AnsibleJob "c1" "job-a"] }) :=
  rfl

/-! ## `RunAnsibleJob`: failure of a context fetch (C9) -/

theorem getClusterDeployment_fetch_error {σ : Type} (c : Client σ) (ns : String) (s : State σ)
    (err : Error) (h : (c.Get s.world Kind.ClusterDeployment ns ns).1 = Except.error err) :
    getClusterDeployment c ns s =
      (Except.error err,
        { world := (c.Get s.world Kind.ClusterDeployment ns ns).2,
          log := s.log ++ [Event.get Kind.ClusterDeployment ns ns] }) := by
  simp only [getClusterDeployment, clientGet, h]

theorem getMachinePool_fetch_error {σ : Type} (c : Client σ) (ns : String) (s : State σ)
    (err : Error) (h : (c.Get s.world Kind.MachinePool ns (ns ++ MPSUFFIX)).1 = Except.error err) :
    getMachinePool c ns s =
      (Except.error err,
        { world := (c.Get s.world Kind.MachinePool ns (ns ++ MPSUFFIX)).2,
          log := s.log ++ [Event.get Kind.MachinePool ns (ns ++ MPSUFFIX)] }) := by
  simp only [getMachinePool, clientGet, h]

/-- C9: once the job description is built, (1) if the fetch of the cluster
deployment (namespace and name both the curator's namespace) fails,
`RunAnsibleJob` returns that error with a nil job right after that fetch; (2)
if the cluster deployment was obtained and the fetch of the machine pool (name
the curator's namespace followed by "-worker") fails, `RunAnsibleJob` returns
that error with a nil job right after the two fetches. In both cases the calls
issued are those fetches only: `client.Create` is never called. (3) When the
description cannot be built, because the hook's extraVars do not decode,
`RunAnsibleJob` halts before any call. -/
theorem RunAnsibleJob_context_fetch_error {σ : Type} (c : Client σ) (curator : ClusterCurator)
    (jobtype : String) (hookToRun : Hook) (secretRef : String) (s : State σ) (err : Error) :
    (∀ ansibleJob,
      getAnsibleJob c jobtype hookToRun.Name secretRef hookToRun.ExtraVars ""
        curator.Namespace = Res.ret ansibleJob →
      (c.Get s.world Kind.ClusterDeployment curator.Namespace curator.Namespace).1 =
        Except.error err →
      RunAnsibleJob c curator jobtype hookToRun secretRef s =
        (Res.ret (Except.error err),
          { world := (c.Get s.world Kind.ClusterDeployment curator.Namespace
              curator.Namespace).2,
            log := s.log ++
              [Event.get Kind.ClusterDeployment curator.Namespace curator.Namespace] })) ∧
    (∀ ansibleJob cd s1,
      getAnsibleJob c jobtype hookToRun.Name secretRef hookToRun.ExtraVars ""
        curator.Namespace = Res.ret ansibleJob →
      getClusterDeployment c curator.Namespace s = (Except.ok cd, s1) →
      (c.Get s1.world Kind.MachinePool curator.Namespace (curator.Namespace ++ "-worker")).1 =
        Except.error err →
      RunAnsibleJob c curator jobtype hookToRun secretRef s =
        (Res.ret (Except.error err),
          { world := (c.Get s1.world Kind.MachinePool curator.Namespace
              (curator.Namespace ++ "-worker")).2,
            log := s.log ++
              [Event.get Kind.ClusterDeployment curator.Namespace curator.Namespace,
               Event.get Kind.MachinePool curator.Namespace
                 (curator.Namespace ++ "-worker")] })) ∧
    (∀ e,
      getAnsibleJob c jobtype hookToRun.Name secretRef hookToRun.ExtraVars ""
        curator.Namespace = Res.panic e →
      RunAnsibleJob c curator jobtype hookToRun secretRef s = (Res.panic e, s)) := by
  refine ⟨?_, ?_, ?_⟩
  · intro ansibleJob hdesc hcd
    unfold RunAnsibleJob
    simp only [hdesc, getClusterDeployment_fetch_error c curator.Namespace s err hcd]
  · intro ansibleJob cd s1 hdesc hcd hmp
    have hlog := getClusterDeployment_log c curator.Namespace s
    rw [hcd] at hlog
    simp only at hlog
    have hmp' := getMachinePool_fetch_error c curator.Namespace s1 err hmp
    unfold RunAnsibleJob
    simp only [hdesc, hcd, hmp', hlog, List.append_assoc]
    rfl
  · intro e hdesc
    unfold RunAnsibleJob
    simp only [hdesc]

/-- Instance of `RunAnsibleJob_context_fetch_error`: the cluster deployment of
cluster `c1` is missing, then its machine pool is. -/
theorem RunAnsibleJob_context_fetch_error_witness :
    RunAnsibleJob (scriptClient none []) plainCurator PREHOOK (plainHook "A") "toweraccess"
        noDeploymentScript.start =
      (Res.ret (Except.error "clusterdeployments c1 not found"),
        { world := noDeploymentScript, log := [Event.get Kind.ClusterDeployment "c1" "c1"] }) ∧
    RunAnsibleJob (scriptClient none []) plainCurator PREHOOK (plainHook "A") "toweraccess"
        noMachinePoolScript.start =
      (Res.ret (Except.error "machinepools c1-worker not found"),
        { world := noMachinePoolScript,
          log := [Event.get Kind.ClusterDeployment "c1" "c1",
            Event.get Kind.MachinePool "c1" "c1-worker"] }) :=
  ⟨(RunAnsibleJob_context_fetch_error (scriptClient none []) plainCurator PREHOOK
      (plainHook "A") "toweraccess"
      noDeploymentScript.start "clusterdeployments c1 not found").1 _ rfl rfl,
   (RunAnsibleJob_context_fetch_error (scriptClient none []) plainCurator PREHOOK
      (plainHook "A") "toweraccess"
      noMachinePoolScript.start "machinepools c1-worker not found").2.1 _ _ _ rfl rfl rfl⟩

/-! ## The import monitor (C10) -/

theorem scanImport_skip (pre rest : List Condition) (hpre : ∀ x ∈ pre, Undeciding x) :
    scanImport (pre ++ rest) = scanImport rest := by
  induction pre with
  | nil => rfl
  | cons x tl ih =>
    obtain ⟨h1, h2⟩ := hpre x (List.mem_cons_self _ _)
    simp only [List.cons_append, scanImport, if_neg h1, if_neg h2, ite_self]
    exact ih (fun y hy => hpre y (List.mem_cons_of_mem _ hy))

/-- C10: when the managed cluster was fetched and its conditions list holds a
condition of type HubDenied or Available, all conditions before the first such
one being of other types (Joined included), `MonitorImport` returns during its
first pass over the list, without sleeping: the error "ManagedCluster join
denied" if that first condition is HubDenied, nil if it is Available. -/
theorem MonitorImport_first_deciding {σ : Type} (mcset : ManagedClusterClient σ) (fuel : Nat)
    (clusterName : String) (s : State σ) (managedCluster : ManagedCluster) (w : σ)
    (pre post : List Condition) (condition : Condition)
    (hget : mcset.Get s.world clusterName = (Except.ok managedCluster, w))
    (hconds : managedCluster.Conditions = some (pre ++ condition :: post))
    (hpre : ∀ x ∈ pre, Undeciding x) :
    (condition.Type_ = ManagedClusterConditionHubDenied →
      MonitorImport mcset (fuel + 1) clusterName s =
        (Res.ret (some "ManagedCluster join denied"),
          { world := w, log := s.log ++ [Event.getManagedCluster clusterName] })) ∧
    (condition.Type_ = ManagedClusterConditionAvailable →
      MonitorImport mcset (fuel + 1) clusterName s =
        (Res.ret none,
          { world := w, log := s.log ++ [Event.getManagedCluster clusterName] })) := by
  have hne : ManagedClusterConditionAvailable ≠ ManagedClusterConditionHubDenied := by decide
  constructor
  · intro htype
    unfold MonitorImport
    simp only [hget]
    rw [importLoop]
    simp only [hconds, scanImport_skip pre _ hpre, scanImport, htype, if_true]
  · intro htype
    unfold MonitorImport
    simp only [hget]
    rw [importLoop]
    simp only [hconds, scanImport_skip pre _ hpre, scanImport, htype, if_neg hne, if_true]

/-- Instance of `MonitorImport_first_deciding`: conditions `[HubDenied]` give
failure, `[Available]` give success, and a HubDenied condition after a Joined
and an unknown one, before an Available one, gives failure. -/
theorem MonitorImport_first_deciding_witness :
    MonitorImport (clusterServer (clusterWith [ManagedClusterConditionHubDenied])) 1 "c1"
        importStart = (Res.ret (some "ManagedCluster join denied"), importFetched) ∧
    MonitorImport (clusterServer (clusterWith [ManagedClusterConditionAvailable])) 1 "c1"
        importStart = (Res.ret none, importFetched) ∧
    MonitorImport (clusterServer (clusterWith [ManagedClusterConditionJoined,
        "HubAcceptedManagedCluster", ManagedClusterConditionHubDenied,
        ManagedClusterConditionAvailable])) 1 "c1" importStart =
      (Res.ret (some "ManagedCluster join denied"), importFetched) :=
  ⟨(MonitorImport_first_deciding
      (clusterServer (clusterWith [ManagedClusterConditionHubDenied])) 0 "c1" importStart
      (clusterWith [ManagedClusterConditionHubDenied]) ()
      [] [] (conditionOf ManagedClusterConditionHubDenied) rfl rfl (by simp)).1 rfl,
   (MonitorImport_first_deciding
      (clusterServer (clusterWith [ManagedClusterConditionAvailable])) 0 "c1" importStart
      (clusterWith [ManagedClusterConditionAvailable]) ()
      [] [] (conditionOf ManagedClusterConditionAvailable) rfl rfl (by simp)).2 rfl,
   (MonitorImport_first_deciding
      (clusterServer (clusterWith [ManagedClusterConditionJoined,
        "HubAcceptedManagedCluster", ManagedClusterConditionHubDenied,
        ManagedClusterConditionAvailable])) 0 "c1" importStart
      (clusterWith [ManagedClusterConditionJoined, "HubAcceptedManagedCluster",
        ManagedClusterConditionHubDenied, ManagedClusterConditionAvailable]) ()
      [conditionOf ManagedClusterConditionJoined, conditionOf "HubAcceptedManagedCluster"]
      [conditionOf ManagedClusterConditionAvailable]
      (conditionOf ManagedClusterConditionHubDenied) rfl rfl
      (by
        intro x hx
        simp only [List.mem_cons, List.mem_singleton, List.not_mem_nil, or_false] at hx
        rcases hx with rfl | rfl <;> exact ⟨by decide, by decide⟩)).1 rfl⟩

/-! ## The import monitor: polling (C11) -/

theorem scanImport_undeciding (conditions : List Condition)
    (h : ∀ x ∈ conditions, Undeciding x) : scanImport conditions = none := by
  have := scanImport_skip conditions [] h
  rw [List.append_nil] at this
  rw [this]
  rfl

/-- Once the cluster fetched before the loop has no deciding condition, the
loop only sleeps: it never fetches the cluster again and never returns. -/
theorem importLoop_undeciding {σ : Type} (managedCluster : ManagedCluster) (fuel : Nat)
    (s : State σ)
    (h : managedCluster.Conditions = none ∨
      ∃ conditions, managedCluster.Conditions = some conditions ∧
        ∀ x ∈ conditions, Undeciding x) :
    importLoop managedCluster fuel s =
      (Res.outOfFuel,
        { world := s.world,
          log := s.log ++ List.replicate fuel (Event.sleep PauseTenSeconds) }) := by
  induction fuel generalizing s with
  | zero => simp [importLoop]
  | succ n ih =>
    rw [importLoop]
    rcases h with hnone | ⟨conditions, hsome, hall⟩
    · simp only [hnone, ih, sleep, List.replicate_succ, List.append_assoc, List.singleton_append]
    · simp only [hsome, scanImport_undeciding conditions hall, ih, sleep, List.replicate_succ,
        List.append_assoc, List.singleton_append]

/-- C11, the code at the failing input: the managed cluster has no conditions
at the first fetch and holds the condition Available at every later fetch.
Whatever the number of polls, `MonitorImport` has not returned: it fetched the
cluster once (the server has served one fetch), and every poll after that
slept on the conditions of that first fetch. -/
theorem MonitorImport_stale_conditions (fuel : Nat) :
    (lateAvailableServer.Get 0 "c1").1 = Except.ok (ManagedCluster.mk "c1" none) ∧
    (∀ n, (lateAvailableServer.Get (n + 1) "c1").1 =
      Except.ok (ManagedCluster.mk "c1" (some
        [Condition.mk ManagedClusterConditionAvailable ConditionStatus.True "" ""]))) ∧
    MonitorImport lateAvailableServer fuel "c1" { world := 0, log := [] } =
      (Res.outOfFuel,
        { world := 1,
          log := Event.getManagedCluster "c1" ::
            List.replicate fuel (Event.sleep PauseTenSeconds) }) := by
  refine ⟨rfl, fun _ => rfl, ?_⟩
  unfold MonitorImport
  simp only [lateAvailableServer]
  rw [importLoop_undeciding _ fuel _ (Or.inl rfl)]
  simp

/-! ## The events of `RunAnsibleJob` and of the hook loop -/

/-- The calls of one `RunAnsibleJob`, in order: the two context fetches and
the creation; the run issues an initial part of them, and at least the first
fetch when it returns. -/
theorem RunAnsibleJob_events {σ : Type} (c : Client σ) (curator : ClusterCurator)
    (jobtype : String) (hook : Hook) (secretRef : String) (s : State σ) :
    ∃ desc evs, (RunAnsibleJob c curator jobtype hook secretRef s).2.log = s.log ++ evs ∧
      evs <+: [Event.get Kind.ClusterDeployment curator.Namespace curator.Namespace,
        Event.get Kind.MachinePool curator.Namespace (curator.Namespace ++ MPSUFFIX),
        Event.create desc] ∧
      (∀ x, (RunAnsibleJob c curator jobtype hook secretRef s).1 = Res.ret x → evs ≠ []) := by
  unfold RunAnsibleJob
  simp only
  split
  · exact ⟨[], [], by simp, List.nil_prefix, by intro x h; simp at h⟩
  · exact ⟨[], [], by simp, List.nil_prefix, by intro x h; simp at h⟩
  · rename_i aj haj
    have e1 := getClusterDeployment_log c curator.Namespace s
    split
    · rename_i err s1 hcd
      rw [hcd] at e1
      exact ⟨[], [Event.get Kind.ClusterDeployment curator.Namespace curator.Namespace], e1,
        ⟨_, rfl⟩, by intro x _; simp⟩
    · rename_i cd s1 hcd
      rw [hcd] at e1
      have e2 := getMachinePool_log c curator.Namespace s1
      simp only at e1
      split
      · rename_i err s2 hmp
        rw [hmp] at e2
        simp only at e2
        refine ⟨[], [Event.get Kind.ClusterDeployment curator.Namespace curator.Namespace,
          Event.get Kind.MachinePool curator.Namespace (curator.Namespace ++ MPSUFFIX)], ?_,
          ⟨_, rfl⟩, by intro x _; simp⟩
        simp only [e2, e1, List.append_assoc]
        rfl
      · rename_i mp s2 hmp
        rw [hmp] at e2
        simp only at e2
        have hq : s2.log = s.log ++ [Event.get Kind.ClusterDeployment curator.Namespace
            curator.Namespace, Event.get Kind.MachinePool curator.Namespace
            (curator.Namespace ++ MPSUFFIX)] := by
          simp [e2, e1]
        split
        · exact ⟨[], _, hq, ⟨_, rfl⟩, by intro x h; simp at h⟩
        · exact ⟨[], _, hq, ⟨_, rfl⟩, by intro x h; simp at h⟩
        · rename_i job1 h1
          split
          · exact ⟨[], _, hq, ⟨_, rfl⟩, by intro x h; simp at h⟩
          · exact ⟨[], _, hq, ⟨_, rfl⟩, by intro x h; simp at h⟩
          · rename_i job2 h2
            have e3 := clientCreate_log c job2 s2
            split
            · rename_i err s3 hcr
              rw [hcr] at e3
              simp only at e3
              refine ⟨job2, [Event.get Kind.ClusterDeployment curator.Namespace
                curator.Namespace, Event.get Kind.MachinePool curator.Namespace
                (curator.Namespace ++ MPSUFFIX), Event.create job2], ?_, List.prefix_refl _,
                by intro x _; simp⟩
              simp only [e3, hq, List.append_assoc]
              rfl
            · rename_i created s3 hcr
              rw [hcr] at e3
              simp only at e3
              refine ⟨job2, [Event.get Kind.ClusterDeployment curator.Namespace
                curator.Namespace, Event.get Kind.MachinePool curator.Namespace
                (curator.Namespace ++ MPSUFFIX), Event.create job2], ?_, List.prefix_refl _,
                by intro x _; simp⟩
              simp only [e3, hq, List.append_assoc]
              rfl

theorem RunAnsibleJob_log_le {σ : Type} (c : Client σ) (curator : ClusterCurator)
    (jobtype : String) (hook : Hook) (secretRef : String) (s : State σ) :
    s.log.length ≤ (RunAnsibleJob c curator jobtype hook secretRef s).2.log.length := by
  obtain ⟨desc, evs, hl, _, _⟩ := RunAnsibleJob_events c curator jobtype hook secretRef s
  rw [hl, List.length_append]
  omega

theorem RunAnsibleJob_ret_log_lt {σ : Type} (c : Client σ) (curator : ClusterCurator)
    (jobtype : String) (hook : Hook) (secretRef : String) (s s1 : State σ)
    (x : Except Error Obj)
    (h : RunAnsibleJob c curator jobtype hook secretRef s = (Res.ret x, s1)) :
    s.log.length < s1.log.length := by
  obtain ⟨desc, evs, hl, _, hne⟩ := RunAnsibleJob_events c curator jobtype hook secretRef s
  rw [h] at hl hne
  simp only at hl
  have := List.length_pos.mpr (hne x rfl)
  rw [hl, List.length_append]
  omega

theorem MonitorAnsibleJob_log_le {σ : Type} (c : Client σ) (fuel : Nat) (jobResource : Obj)
    (curator : ClusterCurator) (s : State σ) :
    s.log.length ≤ (MonitorAnsibleJob c fuel jobResource curator s).2.log.length := by
  obtain ⟨evs, hl, _⟩ := MonitorAnsibleJob_log c fuel jobResource curator s
  rw [hl, List.length_append]
  omega

theorem runHooks_log_le {σ : Type} (c : Client σ) (fuel : Nat) (curator : ClusterCurator)
    (jobType secret : String) (hooks : List Hook) (s : State σ) :
    s.log.length ≤ (runHooks c fuel curator jobType secret hooks s).2.log.length := by
  induction hooks generalizing s with
  | nil => simp [runHooks]
  | cons hd tl ih =>
    have hrun := RunAnsibleJob_log_le c curator jobType hd secret s
    rw [runHooks]
    split
    · rename_i e s1 h
      rw [h] at hrun
      exact hrun
    · rename_i s1 h
      rw [h] at hrun
      exact hrun
    · rename_i err s1 h
      rw [h] at hrun
      exact hrun
    · rename_i job s1 h
      rw [h] at hrun
      simp only at hrun
      have hmon := MonitorAnsibleJob_log_le c fuel job curator s1
      split
      · exact hrun
      · split
        · rename_i s2 hm
          rw [hm] at hmon
          simp only at hmon
          exact le_trans (le_trans hrun hmon) (ih s2)
        · rename_i err s2 hm
          rw [hm] at hmon
          exact le_trans hrun hmon
        · rename_i e s2 hm
          rw [hm] at hmon
          exact le_trans hrun hmon
        · rename_i s2 hm
          rw [hm] at hmon
          exact le_trans hrun hmon

/-- A loop over a non-empty hook list that returns has issued a call. -/
theorem runHooks_cons_ret_log_lt {σ : Type} (c : Client σ) (fuel : Nat)
    (curator : ClusterCurator) (jobType secret : String) (hd : Hook) (tl : List Hook)
    (s s' : State σ) (x : Option Error)
    (h : runHooks c fuel curator jobType secret (hd :: tl) s = (Res.ret x, s')) :
    s.log.length < s'.log.length := by
  rw [runHooks] at h
  split at h
  · simp at h
  · simp at h
  · rename_i err s1 hrun
    have := RunAnsibleJob_ret_log_lt c curator jobType hd secret s s1 _ hrun
    simp only [Prod.mk.injEq] at h
    rw [← h.2]
    exact this
  · rename_i job s1 hrun
    have hlt := RunAnsibleJob_ret_log_lt c curator jobType hd secret s s1 _ hrun
    have hmon := MonitorAnsibleJob_log_le c fuel job curator s1
    split at h
    · simp only [Prod.mk.injEq] at h
      rw [← h.2]
      exact hlt
    · split at h
      · rename_i s2 hm
        rw [hm] at hmon
        simp only at hmon
        have hrest := runHooks_log_le c fuel curator jobType secret tl s2
        rw [h] at hrest
        simp only at hrest
        omega
      · rename_i err s2 hm
        rw [hm] at hmon
        simp only [Prod.mk.injEq] at h
        rw [← h.2]
        simp only at hmon
        omega
      · simp at h
      · simp at h

/-! ## The hook runner: the job type (C12) -/

theorem unsupported_ne_missing (d : String) :
    "The Spec.DesiredCuration value is not supported: " ++ d ≠
      "Missing JOB_TYPE environment parameter, use \"prehook\" or \"posthook\"" := by
  intro h
  have h2 := congrArg (fun x => x.data.head?) h
  simp [String.data_append] at h2

/-- C12: `Job` returns the error "Missing JOB_TYPE environment parameter, use
"prehook" or "posthook"" with the state untouched (no resource read or
created, nothing recorded) exactly when the value of JOB_TYPE is neither
"prehook" nor "posthook", whatever the curator's desired curation and hook
lists are; the empty value is such a case. With a valid value the result is
that of the later checks: the error of an unsupported curation, or the
outcome of the loop over the selected hooks. -/
theorem Job_missing_job_type {σ : Type} (c : Client σ) (fuel : Nat) (jobType : String)
    (curator : ClusterCurator) (s : State σ) :
    (Job c fuel jobType curator s =
        (Res.ret (some "Missing JOB_TYPE environment parameter, use \"prehook\" or \"posthook\""),
          s) ↔
      (jobType ≠ "prehook" ∧ jobType ≠ "posthook")) ∧
    (jobType = "" →
      Job c fuel jobType curator s =
        (Res.ret (some "Missing JOB_TYPE environment parameter, use \"prehook\" or \"posthook\""),
          s)) ∧
    ((jobType = "prehook" ∨ jobType = "posthook") →
      (curator.Spec.DesiredCuration ≠ "install" ∧ curator.Spec.DesiredCuration ≠ "upgrade" ∧
        Job c fuel jobType curator s =
          (Res.ret (some ("The Spec.DesiredCuration value is not supported: " ++
            curator.Spec.DesiredCuration)), s)) ∨
      ((curator.Spec.DesiredCuration = "install" ∨ curator.Spec.DesiredCuration = "upgrade") ∧
        Job c fuel jobType curator s =
          runHooks c fuel curator jobType (towerAuthSecret curator)
            (hooksToRun curator jobType) s)) := by
  have hinvalid : (jobType ≠ "prehook" ∧ jobType ≠ "posthook") →
      Job c fuel jobType curator s =
        (Res.ret (some "Missing JOB_TYPE environment parameter, use \"prehook\" or \"posthook\""),
          s) := by
    intro h
    have h' : jobType ≠ PREHOOK ∧ jobType ≠ POSTHOOK := h
    unfold Job
    rw [if_pos h']
  have hvalid : (jobType = "prehook" ∨ jobType = "posthook") →
      (curator.Spec.DesiredCuration ≠ "install" ∧ curator.Spec.DesiredCuration ≠ "upgrade" ∧
        Job c fuel jobType curator s =
          (Res.ret (some ("The Spec.DesiredCuration value is not supported: " ++
            curator.Spec.DesiredCuration)), s)) ∨
      ((curator.Spec.DesiredCuration = "install" ∨ curator.Spec.DesiredCuration = "upgrade") ∧
        Job c fuel jobType curator s =
          runHooks c fuel curator jobType (towerAuthSecret curator)
            (hooksToRun curator jobType) s) := by
    intro hjt
    by_cases hcur : curator.Spec.DesiredCuration = "install" ∨
        curator.Spec.DesiredCuration = "upgrade"
    · exact Or.inr ⟨hcur, Job_eq_runHooks c fuel jobType curator s hjt hcur⟩
    · have h1 : curator.Spec.DesiredCuration ≠ "install" := fun h => hcur (Or.inl h)
      have h2 : curator.Spec.DesiredCuration ≠ "upgrade" := fun h => hcur (Or.inr h)
      exact Or.inl ⟨h1, h2, Job_unsupported c fuel jobType curator s hjt h1 h2⟩
  refine ⟨⟨?_, hinvalid⟩, ?_, hvalid⟩
  · intro hret
    by_contra hnot
    have hjt : jobType = "prehook" ∨ jobType = "posthook" := by
      by_cases h1 : jobType = "prehook"
      · exact Or.inl h1
      · by_cases h2 : jobType = "posthook"
        · exact Or.inr h2
        · exact absurd ⟨h1, h2⟩ hnot
    rcases hvalid hjt with ⟨_, _, hj⟩ | ⟨_, hj⟩
    · rw [hj] at hret
      simp only [Prod.mk.injEq, Res.ret.injEq, Option.some.injEq, and_true] at hret
      exact unsupported_ne_missing _ hret
    · rw [hj] at hret
      cases hh : hooksToRun curator jobType with
      | nil =>
        rw [hh, runHooks_nil] at hret
        simp at hret
      | cons hd tl =>
        rw [hh] at hret
        have := runHooks_cons_ret_log_lt c fuel curator jobType _ hd tl s s _ hret
        omega
  · intro hempty
    apply hinvalid
    subst hempty
    exact ⟨by decide, by decide⟩

/-- Instance of `Job_missing_job_type`: with JOB_TYPE unset, and with the value
"pre", an install with hooks is rejected before any call. -/
theorem Job_missing_job_type_witness :
    Job (scriptClient none []) 3 "" threeHooks threeHooksScript.start =
      (Res.ret (some "Missing JOB_TYPE environment parameter, use \"prehook\" or \"posthook\""),
        threeHooksScript.start) ∧
    Job (scriptClient none []) 3 "pre" threeHooks threeHooksScript.start =
      (Res.ret (some "Missing JOB_TYPE environment parameter, use \"prehook\" or \"posthook\""),
        threeHooksScript.start) :=
  ⟨(Job_missing_job_type (scriptClient none []) 3 "" threeHooks threeHooksScript.start).2.1 rfl,
   (Job_missing_job_type (scriptClient none []) 3 "pre" threeHooks
      threeHooksScript.start).1.mpr ⟨by decide, by decide⟩⟩

/-! ## The credential path (C13) -/

theorem splitSegments_ne_nil (sep : Char) (l : List Char) : splitSegments sep l ≠ [] := by
  cases l with
  | nil => simp [splitSegments]
  | cons ch rest =>
    rw [splitSegments]
    split
    · simp
    · split <;> simp

theorem splitSegments_of_not_mem (sep : Char) (a : List Char) (h : sep ∉ a) :
    splitSegments sep a = [a] := by
  induction a with
  | nil => rfl
  | cons ch rest ih =>
    have hne : ch ≠ sep := fun e => h (e ▸ List.mem_cons_self _ _)
    have hrest : sep ∉ rest := fun m => h (List.mem_cons_of_mem _ m)
    rw [splitSegments, if_neg hne, ih hrest]

theorem splitSegments_append (sep : Char) (a b : List Char) (h : sep ∉ a) :
    splitSegments sep (a ++ sep :: b) = a :: splitSegments sep b := by
  induction a with
  | nil => simp [splitSegments]
  | cons ch rest ih =>
    have hne : ch ≠ sep := fun e => h (e ▸ List.mem_cons_self _ _)
    have hrest : sep ∉ rest := fun m => h (List.mem_cons_of_mem _ m)
    rw [List.cons_append, splitSegments, if_neg hne, ih hrest]

/-- The first segment holds no separator; it is the whole input when it is the
only segment, and otherwise the input is that segment, a separator, and an
input that splits into the remaining segments. -/
theorem splitSegments_cons (sep : Char) (l a : List Char) (rest : List (List Char))
    (h : splitSegments sep l = a :: rest) :
    sep ∉ a ∧ ((rest = [] ∧ l = a) ∨
      ∃ b, l = a ++ sep :: b ∧ splitSegments sep b = rest) := by
  induction l generalizing a rest with
  | nil =>
    simp only [splitSegments, List.cons.injEq] at h
    obtain ⟨ha, hr⟩ := h
    subst ha
    subst hr
    exact ⟨by simp, Or.inl ⟨rfl, rfl⟩⟩
  | cons ch tl ih =>
    rw [splitSegments] at h
    split at h
    · rename_i hsep
      simp only [List.cons.injEq] at h
      obtain ⟨ha, hr⟩ := h
      subst ha
      exact ⟨by simp, Or.inr ⟨tl, by simp [hsep], hr⟩⟩
    · rename_i hne
      split at h
      · rename_i hnil
        exact absurd hnil (splitSegments_ne_nil sep tl)
      · rename_i seg segs hsplit
        simp only [List.cons.injEq] at h
        obtain ⟨ha, hr⟩ := h
        subst ha
        subst hr
        obtain ⟨hmem, hcase⟩ := ih seg segs hsplit
        refine ⟨?_, ?_⟩
        · intro hm
          rcases List.mem_cons.mp hm with e | m
          · exact hne e.symm
          · exact hmem m
        · rcases hcase with ⟨hnil, htl⟩ | ⟨b, htl, hb⟩
          · exact Or.inl ⟨hnil, by rw [htl]⟩
          · exact Or.inr ⟨b, by rw [htl]; rfl, hb⟩

theorem splitSegments_eq_pair (sep : Char) (l a b : List Char) :
    splitSegments sep l = [a, b] ↔ l = a ++ sep :: b ∧ sep ∉ a ∧ sep ∉ b := by
  constructor
  · intro h
    obtain ⟨ha, hcase⟩ := splitSegments_cons sep l a [b] h
    rcases hcase with ⟨hnil, _⟩ | ⟨b', hl, hb'⟩
    · simp at hnil
    · obtain ⟨hb, hcase'⟩ := splitSegments_cons sep b' b [] hb'
      rcases hcase' with ⟨_, hbb⟩ | ⟨b'', _, hnil⟩
      · subst hbb
        exact ⟨hl, ha, hb⟩
      · exact absurd hnil (splitSegments_ne_nil sep b'')
  · rintro ⟨hl, ha, hb⟩
    rw [hl, splitSegments_append sep a b ha, splitSegments_of_not_mem sep b hb]

theorem PathSplitterFromEnv_ok_iff (path ns name : String) :
    PathSplitterFromEnv path = Except.ok (ns, name) ↔
      path = ns ++ "/" ++ name ∧ ns ≠ "" ∧ name ≠ "" ∧ '/' ∉ ns.data ∧ '/' ∉ name.data := by
  have hform : path = ns ++ "/" ++ name ↔ path.data = ns.data ++ '/' :: name.data := by
    rw [String.ext_iff]
    simp [String.data_append]
  have hempty : ∀ t : String, t ≠ "" ↔ t.data ≠ [] := by
    intro t
    rw [Ne, String.ext_iff]
  rw [hform, hempty ns, hempty name]
  constructor
  · intro h
    unfold PathSplitterFromEnv at h
    split at h
    · rename_i a b hsplit
      split at h
      · simp at h
      · rename_i hne
        simp only [Except.ok.injEq, Prod.mk.injEq] at h
        obtain ⟨h1, h2⟩ := h
        subst h1
        subst h2
        obtain ⟨hl, ha, hb⟩ := (splitSegments_eq_pair '/' path.data a b).mp hsplit
        simp only [not_or] at hne
        exact ⟨hl, hne.1, hne.2, ha, hb⟩
    · simp at h
  · rintro ⟨hl, hns, hname, ha, hb⟩
    have hsplit := (splitSegments_eq_pair '/' path.data ns.data name.data).mpr ⟨hl, ha, hb⟩
    unfold PathSplitterFromEnv
    rw [hsplit]
    simp [hns, hname]

theorem PathSplitterFromEnv_cases (path : String) :
    (∃ ns name, PathSplitterFromEnv path = Except.ok (ns, name)) ∨
      PathSplitterFromEnv path =
        Except.error "the path must have the form namespace/secretName" := by
  unfold PathSplitterFromEnv
  split
  · split
    · exact Or.inr rfl
    · exact Or.inl ⟨_, _, rfl⟩
  · exact Or.inr rfl

/-- C13: `PathSplitterFromEnv path` succeeds with `(ns, name)` exactly when
`path` is `ns`, a slash, `name`, where both segments are non-empty and hold no
slash, that is when `path` split on "/" has exactly the two non-empty segments
`ns` and `name`; every other path gives an error. So "ns1/s1" gives
("ns1", "s1"), and "", "value", "value/", "/value" (and "a/b/c") give an
error. -/
theorem PathSplitterFromEnv_two_segments :
    (∀ path ns name : String,
      PathSplitterFromEnv path = Except.ok (ns, name) ↔
        path = ns ++ "/" ++ name ∧ ns ≠ "" ∧ name ≠ "" ∧
          '/' ∉ ns.data ∧ '/' ∉ name.data) ∧
    (∀ path : String,
      (¬ ∃ ns name : String, path = ns ++ "/" ++ name ∧ ns ≠ "" ∧ name ≠ "" ∧
          '/' ∉ ns.data ∧ '/' ∉ name.data) →
      ∃ err, PathSplitterFromEnv path = Except.error err) ∧
    PathSplitterFromEnv "ns1/s1" = Except.ok ("ns1", "s1") ∧
    (∃ err, PathSplitterFromEnv "" = Except.error err) ∧
    (∃ err, PathSplitterFromEnv "value" = Except.error err) ∧
    (∃ err, PathSplitterFromEnv "value/" = Except.error err) ∧
    (∃ err, PathSplitterFromEnv "/value" = Except.error err) ∧
    (∃ err, PathSplitterFromEnv "a/b/c" = Except.error err) := by
  refine ⟨PathSplitterFromEnv_ok_iff, ?_, rfl, ⟨_, rfl⟩, ⟨_, rfl⟩, ⟨_, rfl⟩, ⟨_, rfl⟩, ⟨_, rfl⟩⟩
  intro path hnot
  rcases PathSplitterFromEnv_cases path with ⟨ns, name, hok⟩ | herr
  · exact absurd ⟨ns, name, (PathSplitterFromEnv_ok_iff path ns name).mp hok⟩ hnot
  · exact ⟨_, herr⟩

/-! ## The job description (C14, C15) -/

theorem getAnsibleJob_of_decoded {σ : Type} (c : Client σ)
    (jobtype template secretRef : String) (extraVars : Option RawExtension)
    (name ns : String) (m : Obj) (h : decodeExtraVars c extraVars = Except.ok (some m)) :
    getAnsibleJob c jobtype template secretRef extraVars name ns =
      Res.ret (jobObject jobtype template secretRef name ns m) := by
  unfold getAnsibleJob
  cases extraVars with
  | none =>
    simp only [decodeExtraVars, Except.ok.injEq, Option.some.injEq] at h
    subst h
    simp [CheckError, index_cons, assignEntry, mapSet, jobObject]
  | some ev =>
    simp only [decodeExtraVars] at h
    simp [h, CheckError, index_cons, assignEntry, mapSet, jobObject]

theorem setExtraVar_jobObject (jobtype template secretRef name ns : String) (extraVars : Obj)
    (key : String) (v : Value) :
    setExtraVar (jobObject jobtype template secretRef name ns extraVars) key v =
      Res.ret (jobObject jobtype template secretRef name ns (mapSet extraVars key v)) := by
  simp [setExtraVar, jobObject, index_cons, asMap_obj, assignEntry, mapSet]

/-- With extraVars that are absent or decode to an object, and both context
resources fetched, `RunAnsibleJob` submits the specified description to
`client.Create` and returns what the creation returns. -/
theorem RunAnsibleJob_submits {σ : Type} (c : Client σ) (curator : ClusterCurator)
    (jobtype : String) (hook : Hook) (secretRef : String) (s s1 s2 : State σ)
    (m cd mp : Obj)
    (hdec : decodeExtraVars c hook.ExtraVars = Except.ok (some m))
    (hcd : getClusterDeployment c curator.Namespace s = (Except.ok cd, s1))
    (hmp : getMachinePool c curator.Namespace s1 = (Except.ok mp, s2)) :
    RunAnsibleJob c curator jobtype hook secretRef s =
      (Res.ret (clientCreate c (submittedJob jobtype hook.Name secretRef curator.Namespace m
          (index cd "spec") (index mp "spec")) s2).1,
        (clientCreate c (submittedJob jobtype hook.Name secretRef curator.Namespace m
          (index cd "spec") (index mp "spec")) s2).2) := by
  unfold RunAnsibleJob
  simp only [getAnsibleJob_of_decoded c jobtype hook.Name secretRef hook.ExtraVars ""
    curator.Namespace m hdec, hcd, hmp, setExtraVar_jobObject]
  rw [← submittedJob]
  cases hcr : (clientCreate c (submittedJob jobtype hook.Name secretRef curator.Namespace m
      (index cd "spec") (index mp "spec")) s2).1 with
  | error err =>
    have : clientCreate c (submittedJob jobtype hook.Name secretRef curator.Namespace m
        (index cd "spec") (index mp "spec")) s2 = (Except.error err,
        (clientCreate c (submittedJob jobtype hook.Name secretRef curator.Namespace m
          (index cd "spec") (index mp "spec")) s2).2) := Prod.ext hcr rfl
    rw [this]
  | ok created =>
    have : clientCreate c (submittedJob jobtype hook.Name secretRef curator.Namespace m
        (index cd "spec") (index mp "spec")) s2 = (Except.ok created,
        (clientCreate c (submittedJob jobtype hook.Name secretRef curator.Namespace m
          (index cd "spec") (index mp "spec")) s2).2) := Prod.ext hcr rfl
    rw [this]

theorem getAnsibleJob_of_nilMap {σ : Type} (c : Client σ)
    (jobtype template secretRef : String) (extraVars : Option RawExtension)
    (name ns : String) (h : decodeExtraVars c extraVars = Except.ok none) :
    getAnsibleJob c jobtype template secretRef extraVars name ns =
      Res.ret
        [("apiVersion", Value.str "tower.ansible.com/v1alpha1"),
         ("kind", Value.str "AnsibleJob"),
         ("metadata", Value.obj
           [("generateName", Value.str (jobtype ++ "job-")),
            ("name", Value.str name),
            ("namespace", Value.str ns),
            ("annotations", Value.obj [("jobtype", Value.str jobtype)])]),
         ("spec", Value.obj
           [("job_template_name", Value.str template),
            ("tower_auth_secret", Value.str secretRef),
            ("extra_vars", Value.nilMap)])] := by
  unfold getAnsibleJob
  cases extraVars with
  | none => simp [decodeExtraVars] at h
  | some ev =>
    simp only [decodeExtraVars] at h
    simp [h, CheckError, index_cons, assignEntry, mapSet]

/-- When the decoding of the hook's extraVars returns no error and leaves the
nil map, and both context resources are fetched, `RunAnsibleJob` panics on the
assignment of `cluster_deployment`, in the state the two fetches left: nothing
is submitted to `client.Create`. -/
theorem RunAnsibleJob_nil_extraVars {σ : Type} (c : Client σ) (curator : ClusterCurator)
    (jobtype : String) (hook : Hook) (secretRef : String) (s s1 s2 : State σ)
    (cd mp : Obj)
    (hdec : decodeExtraVars c hook.ExtraVars = Except.ok none)
    (hcd : getClusterDeployment c curator.Namespace s = (Except.ok cd, s1))
    (hmp : getMachinePool c curator.Namespace s1 = (Except.ok mp, s2)) :
    RunAnsibleJob c curator jobtype hook secretRef s = (Res.panic nilMapAssignment, s2) := by
  unfold RunAnsibleJob
  simp only [getAnsibleJob_of_nilMap c jobtype hook.Name secretRef hook.ExtraVars ""
    curator.Namespace hdec, hcd, hmp]
  simp [setExtraVar, index_cons, asMap_obj, assignEntry]

theorem runHooks_of_unnamed {σ : Type} (c : Client σ) (fuel : Nat) (curator : ClusterCurator)
    (jobType secret : String) (h : Hook) (rest : List Hook) (s s1 : State σ) (job : Obj)
    (hrun : RunAnsibleJob c curator jobType h secret s = (Res.ret (Except.ok job), s1))
    (hname : GetName job = "") :
    runHooks c fuel curator jobType secret (h :: rest) s =
      (Res.ret (some "Name was not generated"), s1) := by
  rw [runHooks]
  simp only [hrun, if_pos hname]

/-- The calls of `RunAnsibleJob` record no condition, and request at most the
creation of the hook's own job. -/
theorem RunAnsibleJob_no_record {σ : Type} (c : Client σ) (curator : ClusterCurator)
    (jobtype : String) (hook : Hook) (secretRef : String) (s : State σ) (t : String) :
    ∃ evs, (RunAnsibleJob c curator jobtype hook secretRef s).2.log = s.log ++ evs ∧
      (∀ e ∈ evs, e.recorded t = none) ∧
      (createdTemplates evs = [] ∨ createdTemplates evs = [hook.Name]) := by
  obtain ⟨desc, evs, hl, hpre, _⟩ := RunAnsibleJob_events c curator jobtype hook secretRef s
  obtain ⟨evs', hl', hc⟩ := RunAnsibleJob_log c curator jobtype hook secretRef s
  have heq : evs' = evs := List.append_cancel_left (hl'.symm.trans hl)
  subst heq
  refine ⟨evs', hl, ?_, hc⟩
  intro e he
  have hmem := hpre.subset he
  simp only [List.mem_cons, List.mem_singleton, List.not_mem_nil, or_false] at hmem
  rcases hmem with rfl | rfl | rfl <;> rfl

/-- C14: let the hooks before hook `h` of the selected list have succeeded,
leaving state `s1`. (1) If `RunAnsibleJob` for `h` returns an error, `Job`
returns that error; in particular (2) when the creation is reached (the
extraVars of `h` are absent or decode to an object `m`, and both context
fetches succeed), a failure of `client.Create` on the description is returned
as the error of `Job`. (3) If the created job has an empty name, `Job` returns the error
"Name was not generated". In each case the state `Job` ends in is the one
`RunAnsibleJob` left, and (4) the calls of `RunAnsibleJob` hold no record of a
condition and at most the creation of the job of `h`: the job is not
monitored, no `current-ansiblejob` condition is recorded for it, and no later
hook is run. -/
theorem Job_create_failure_or_unnamed {σ : Type} (c : Client σ) (fuel : Nat) (jobType : String)
    (curator : ClusterCurator) (s s1 : State σ) (pre post : List Hook) (h : Hook)
    (hjt : jobType = PREHOOK ∨ jobType = POSTHOOK)
    (hcur : curator.Spec.DesiredCuration = "install" ∨ curator.Spec.DesiredCuration = "upgrade")
    (hsplit : hooksToRun curator jobType = pre ++ h :: post)
    (hpre : HooksSucceed c fuel curator jobType (towerAuthSecret curator) pre s s1) :
    (∀ err s2,
      RunAnsibleJob c curator jobType h (towerAuthSecret curator) s1 =
        (Res.ret (Except.error err), s2) →
      Job c fuel jobType curator s = (Res.ret (some err), s2)) ∧
    (∀ m cd mp sa sb err,
      decodeExtraVars c h.ExtraVars = Except.ok (some m) →
      getClusterDeployment c curator.Namespace s1 = (Except.ok cd, sa) →
      getMachinePool c curator.Namespace sa = (Except.ok mp, sb) →
      (c.Create sb.world (submittedJob jobType h.Name (towerAuthSecret curator)
        curator.Namespace m (index cd "spec") (index mp "spec"))).1 = Except.error err →
      Job c fuel jobType curator s =
        (Res.ret (some err),
          (clientCreate c (submittedJob jobType h.Name (towerAuthSecret curator)
            curator.Namespace m (index cd "spec") (index mp "spec")) sb).2)) ∧
    (∀ job s2,
      RunAnsibleJob c curator jobType h (towerAuthSecret curator) s1 =
        (Res.ret (Except.ok job), s2) →
      GetName job = "" →
      Job c fuel jobType curator s = (Res.ret (some "Name was not generated"), s2)) ∧
    (∃ evs,
      (RunAnsibleJob c curator jobType h (towerAuthSecret curator) s1).2.log = s1.log ++ evs ∧
      (∀ e ∈ evs, e.recorded "current-ansiblejob" = none) ∧
      (createdTemplates evs = [] ∨ createdTemplates evs = [h.Name])) := by
  have hjob : Job c fuel jobType curator s =
      runHooks c fuel curator jobType (towerAuthSecret curator) (h :: post) s1 := by
    rw [Job_eq_runHooks c fuel jobType curator s hjt hcur, hsplit,
      runHooks_append_of_succeed c fuel curator jobType _ pre (h :: post) s s1 hpre]
  have hfail : ∀ err s2,
      RunAnsibleJob c curator jobType h (towerAuthSecret curator) s1 =
        (Res.ret (Except.error err), s2) →
      Job c fuel jobType curator s = (Res.ret (some err), s2) := by
    intro err s2 hrun
    rw [hjob]
    exact runHooks_of_fails c fuel curator jobType _ h post s1 s2 err (Or.inl hrun)
  refine ⟨hfail, ?_, ?_, RunAnsibleJob_no_record c curator jobType h _ s1 _⟩
  · intro m cd mp sa sb err hdec hcd hmp hcreate
    apply hfail
    rw [RunAnsibleJob_submits c curator jobType h _ s1 sa sb m cd mp hdec hcd hmp]
    have : (clientCreate c (submittedJob jobType h.Name (towerAuthSecret curator)
        curator.Namespace m (index cd "spec") (index mp "spec")) sb).1 = Except.error err :=
      hcreate
    rw [this]
  · intro job s2 hrun hname
    rw [hjob]
    exact runHooks_of_unnamed c fuel curator jobType _ h post s1 s2 job hrun hname

/-- Instance of `Job_create_failure_or_unnamed`: with posthooks A and B, the
creation of the job of A fails, respectively gives a job without name; `Job`
returns the error after the two fetches and the creation request for A. -/
theorem Job_create_failure_or_unnamed_witness :
    (Job (scriptClient none []) 3 POSTHOOK resumeAtB createFailsScript.start).1 =
      Res.ret (some "create failed") ∧
    Job (scriptClient none []) 3 POSTHOOK resumeAtB createFailsScript.start =
      (Res.ret (some "create failed"),
        State.mk createFailsScript
          [Event.get Kind.ClusterDeployment "c1" "c1",
           Event.get Kind.MachinePool "c1" "c1-worker",
           Event.create (submittedJob "posthook" "A" "toweraccess" "c1" []
             (Value.obj [("baseDomain", Value.str "example.com")])
             (Value.obj [("baseDomain", Value.str "example.com")]))]) ∧
    (Job (scriptClient none []) 3 POSTHOOK resumeAtB unnamedScript.start).1 =
      Res.ret (some "Name was not generated") ∧
    createdTemplates
      (Job (scriptClient none []) 3 POSTHOOK resumeAtB unnamedScript.start).2.log = ["A"] ∧
    lastRecorded "current-ansiblejob"
      (Job (scriptClient none []) 3 POSTHOOK resumeAtB unnamedScript.start).2.log = none := by
  have h1 := (Job_create_failure_or_unnamed (scriptClient none []) 3 POSTHOOK resumeAtB
    createFailsScript.start createFailsScript.start [] [plainHook "B"] (plainHook "A")
    (Or.inr rfl) (Or.inl rfl) rfl (HooksSucceed.nil _)).1 "create failed" _ rfl
  have h2 := (Job_create_failure_or_unnamed (scriptClient none []) 3 POSTHOOK resumeAtB
    unnamedScript.start unnamedScript.start [] [plainHook "B"] (plainHook "A")
    (Or.inr rfl) (Or.inl rfl) rfl (HooksSucceed.nil _)).2.2.1 _ _ rfl rfl
  have h3 := (Job_create_failure_or_unnamed (scriptClient none []) 3 POSTHOOK resumeAtB
    createFailsScript.start createFailsScript.start [] [plainHook "B"] (plainHook "A")
    (Or.inr rfl) (Or.inl rfl) rfl (HooksSucceed.nil _)).2.1 [] contextResource contextResource
    (State.mk createFailsScript [Event.get Kind.ClusterDeployment "c1" "c1"])
    (State.mk createFailsScript
      [Event.get Kind.ClusterDeployment "c1" "c1", Event.get Kind.MachinePool "c1" "c1-worker"])
    "create failed" rfl rfl rfl rfl
  refine ⟨?_, h3.trans rfl, ?_⟩
  · rw [h1]
  · rw [h2]
    exact ⟨rfl, rfl, rfl⟩

theorem getClusterDeployment_ok_log {σ : Type} (c : Client σ) (ns : String) (s s1 : State σ)
    (cd : Obj) (h : getClusterDeployment c ns s = (Except.ok cd, s1)) :
    s1.log = s.log ++ [Event.get Kind.ClusterDeployment ns ns] := by
  have := getClusterDeployment_log c ns s
  rw [h] at this
  exact this

theorem getMachinePool_ok_log {σ : Type} (c : Client σ) (ns : String) (s s1 : State σ)
    (mp : Obj) (h : getMachinePool c ns s = (Except.ok mp, s1)) :
    s1.log = s.log ++ [Event.get Kind.MachinePool ns (ns ++ MPSUFFIX)] := by
  have := getMachinePool_log c ns s
  rw [h] at this
  exact this

/-- C15, amended: when the hook's extraVars are absent or decode to an object
(`m` is that object, the empty mapping when they are absent) and both context
fetches succeed, `RunAnsibleJob` submits to
`client.Create`, right after the two fetches, a description `desc` and returns
what the creation returns. `desc` has kind AnsibleJob; its metadata hold
generateName = jobtype + "job-", an empty name, namespace = the curator's
namespace and the annotation jobtype = jobtype; its spec holds
job_template_name = the hook's name, tower_auth_secret = the given secret
reference, and extra_vars, a mapping in which `cluster_deployment` is the
fetched cluster deployment's `spec`, `machine_pool` is the fetched machine
pool's `spec`, and every other key reads as in `m`: the hook's other keys are
kept and a hook-supplied `cluster_deployment` or `machine_pool` is
overwritten. -/
theorem RunAnsibleJob_job_description {σ : Type} (c : Client σ) (curator : ClusterCurator)
    (jobtype : String) (hook : Hook) (secretRef : String) (s s1 s2 : State σ)
    (m cd mp : Obj)
    (hdec : decodeExtraVars c hook.ExtraVars = Except.ok (some m))
    (hcd : getClusterDeployment c curator.Namespace s = (Except.ok cd, s1))
    (hmp : getMachinePool c curator.Namespace s1 = (Except.ok mp, s2)) :
    ∃ desc,
      RunAnsibleJob c curator jobtype hook secretRef s =
        (Res.ret (c.Create s2.world desc).1,
          { world := (c.Create s2.world desc).2,
            log := s.log ++
              [Event.get Kind.ClusterDeployment curator.Namespace curator.Namespace,
               Event.get Kind.MachinePool curator.Namespace (curator.Namespace ++ "-worker"),
               Event.create desc] }) ∧
      desc = submittedJob jobtype hook.Name secretRef curator.Namespace m
        (index cd "spec") (index mp "spec") ∧
      index desc "kind" = Value.str "AnsibleJob" ∧
      (∃ metadata annotations,
        index desc "metadata" = Value.obj metadata ∧
        index metadata "generateName" = Value.str (jobtype ++ "job-") ∧
        index metadata "name" = Value.str "" ∧
        index metadata "namespace" = Value.str curator.Namespace ∧
        index metadata "annotations" = Value.obj annotations ∧
        index annotations "jobtype" = Value.str jobtype) ∧
      (∃ spec extraVars,
        index desc "spec" = Value.obj spec ∧
        index spec "job_template_name" = Value.str hook.Name ∧
        index spec "tower_auth_secret" = Value.str secretRef ∧
        index spec "extra_vars" = Value.obj extraVars ∧
        index extraVars "cluster_deployment" = index cd "spec" ∧
        index extraVars "machine_pool" = index mp "spec" ∧
        ∀ key, key ≠ "cluster_deployment" → key ≠ "machine_pool" →
          index extraVars key = index m key) := by
  refine ⟨submittedJob jobtype hook.Name secretRef curator.Namespace m
    (index cd "spec") (index mp "spec"), ?_, rfl, ?_, ?_, ?_⟩
  · rw [RunAnsibleJob_submits c curator jobtype hook secretRef s s1 s2 m cd mp hdec hcd hmp]
    have h1 := getClusterDeployment_ok_log c curator.Namespace s s1 cd hcd
    have h2 := getMachinePool_ok_log c curator.Namespace s1 s2 mp hmp
    simp only [clientCreate, h2, h1, List.append_assoc, List.cons_append, List.nil_append]
    rfl
  · simp [submittedJob, jobObject, index_cons]
  · refine ⟨[("generateName", Value.str (jobtype ++ "job-")), ("name", Value.str ""),
      ("namespace", Value.str curator.Namespace),
      ("annotations", Value.obj [("jobtype", Value.str jobtype)])],
      [("jobtype", Value.str jobtype)], ?_, ?_, ?_, ?_, ?_, ?_⟩ <;>
      simp [submittedJob, jobObject, index_cons]
  · refine ⟨[("job_template_name", Value.str hook.Name),
      ("tower_auth_secret", Value.str secretRef),
      ("extra_vars", Value.obj (mapSet (mapSet m "cluster_deployment" (index cd "spec"))
        "machine_pool" (index mp "spec")))],
      mapSet (mapSet m "cluster_deployment" (index cd "spec")) "machine_pool"
        (index mp "spec"), ?_, ?_, ?_, ?_, ?_, ?_, ?_⟩
    · simp [submittedJob, jobObject, index_cons]
    · simp [index_cons]
    · simp [index_cons]
    · simp [index_cons]
    · simp [index_mapSet]
    · simp [index_mapSet]
    · intro key h1 h2
      simp [index_mapSet, h1, h2]

/-- Instance of `RunAnsibleJob_job_description`: a hook with the extraVars
`region` and `cluster_deployment`; the description submitted keeps `region`,
replaces `cluster_deployment` by the fetched spec and adds `machine_pool`. -/
theorem RunAnsibleJob_job_description_witness :
    (RunAnsibleJob (scriptClient none [(rawExtraVars, decodedVars)]) plainCurator PREHOOK
        decoratedHook "toweraccess" (scriptOf ["job-a"] []).start).2.log =
      [Event.get Kind.ClusterDeployment "c1" "c1", Event.get Kind.MachinePool "c1" "c1-worker",
       Event.create (jobObject "prehook" "A" "toweraccess" "" "c1"
        [("region", Value.str "east"),
         ("cluster_deployment", Value.obj [("baseDomain", Value.str "example.com")]),
         ("machine_pool", Value.obj [("baseDomain", Value.str "example.com")])])] := by
  obtain ⟨desc, hrun, hdesc, _⟩ := RunAnsibleJob_job_description
    (scriptClient none [(rawExtraVars, decodedVars)]) plainCurator PREHOOK decoratedHook
    "toweraccess" (scriptOf ["job-a"] []).start
    { world := scriptOf ["job-a"] [], log := [Event.get Kind.ClusterDeployment "c1" "c1"] }
    { world := scriptOf ["job-a"] [],
      log := [Event.get Kind.ClusterDeployment "c1" "c1",
        Event.get Kind.MachinePool "c1" "c1-worker"] }
    decodedVars contextResource contextResource rfl rfl rfl
  rw [hrun, hdesc]
  rfl

/-- C15 fails as stated: on a server where both context fetches succeed, (1) a
hook whose extraVars are the literal `null` decodes without error to the nil
map, and `RunAnsibleJob` panics on the assignment of `cluster_deployment`
right after the two fetches; (2) a hook whose extraVars do not decode makes
`RunAnsibleJob` halt before any call. In neither run is a description
submitted to `client.Create`. -/
theorem RunAnsibleJob_null_extraVars_submits_nothing :
    (getClusterDeployment (scriptClient none []) "c1" (scriptOf ["job-a"] []).start).1 =
      Except.ok contextResource ∧
    (getMachinePool (scriptClient none []) "c1" (scriptOf ["job-a"] []).start).1 =
      Except.ok contextResource ∧
    decodeExtraVars (scriptClient none []) nullVarsHook.ExtraVars = Except.ok none ∧
    RunAnsibleJob (scriptClient none []) plainCurator PREHOOK nullVarsHook "toweraccess"
        (scriptOf ["job-a"] []).start =
      (Res.panic "assignment to entry in nil map",
        State.mk (scriptOf ["job-a"] [])
          [Event.get Kind.ClusterDeployment "c1" "c1",
           Event.get Kind.MachinePool "c1" "c1-worker"]) ∧
    decodeExtraVars (scriptClient none []) brokenVarsHook.ExtraVars =
      Except.error "invalid character" ∧
    RunAnsibleJob (scriptClient none []) plainCurator PREHOOK brokenVarsHook "toweraccess"
        (scriptOf ["job-a"] []).start =
      (Res.panic "invalid character", (scriptOf ["job-a"] []).start) :=
  ⟨rfl, rfl, rfl, rfl, rfl, rfl⟩

/-! ## The job monitor: initialization guard and precedence (C16, C17) -/

/-- C16: at a poll whose fetched job has a status that holds no `conditions`
entry, whatever else the status holds (`ansibleJobResult.status` equal to
"successful" or "error" included), the poll is treated as initializing: the
loop returns neither success nor error at it and records nothing; after the
fetch it sleeps and goes on with the next poll. -/
theorem MonitorAnsibleJob_no_conditions_initializing {σ : Type} (c : Client σ)
    (curator : ClusterCurator) (ns name : String) (fuel : Nat) (s s1 : State σ)
    (jobResource jos : Obj)
    (hget : clientGet c Kind.AnsibleJob ns name s = (Except.ok jobResource, s1))
    (hstatus : index jobResource "status" = Value.obj jos)
    (hconds : index jos "conditions" = Value.null) :
    inspectJob ns name jobResource = Poll.initializing ∧
    monitorLoop c curator ns name (fuel + 1) s =
      monitorLoop c curator ns name fuel
        { world := s1.world,
          log := s.log ++ [Event.get Kind.AnsibleJob ns name, Event.sleep 5] } := by
  have hp := inspectJob_no_conditions ns name jobResource jos hstatus hconds
  refine ⟨hp, ?_⟩
  rw [monitorLoop_poll_initializing c curator ns name fuel s s1 jobResource hget hp]
  have hlog := clientGet_log c _ ns name s s1 _ hget
  simp only [sleep, hlog, List.append_assoc, List.singleton_append]
  rfl

/-- Instance of `MonitorAnsibleJob_no_conditions_initializing`: two polls
report `successful`, then `error`, both without conditions entry; neither ends
the monitoring, and the loop is still polling when its two polls are used up. -/
theorem MonitorAnsibleJob_no_conditions_initializing_witness :
    monitorLoop (scriptClient none []) plainCurator "c1" "job-a" 2
        (scriptOf [] [Except.ok (fetchedJob "c1" "job-a" statusSuccessfulNoConditions),
          Except.ok (fetchedJob "c1" "job-a" statusErrorNoConditions)]).start =
      (Res.outOfFuel,
        { world := scriptOf [] [],
          log := [Event.get Kind.AnsibleJob "c1" "job-a", Event.sleep 5,
            Event.get Kind.AnsibleJob "c1" "job-a", Event.sleep 5] }) := by
  rw [(MonitorAnsibleJob_no_conditions_initializing (scriptClient none []) plainCurator "c1"
    "job-a" 1
    (scriptOf [] [Except.ok (fetchedJob "c1" "job-a" statusSuccessfulNoConditions),
      Except.ok (fetchedJob "c1" "job-a" statusErrorNoConditions)]).start
    { world := scriptOf [] [Except.ok (fetchedJob "c1" "job-a" statusErrorNoConditions)],
      log := [Event.get Kind.AnsibleJob "c1" "job-a"] }
    (fetchedJob "c1" "job-a" statusSuccessfulNoConditions)
    [("ansibleJobResult", Value.obj [("status", Value.str "successful")])] rfl rfl rfl).2]
  rfl

/-- C17: within one poll the result status is read before the conditions. If
the status of the fetched job holds a conditions list with a condition of
reason Failed and reports `ansibleJobResult.status` "successful", the loop
records `current-ansiblejob` with status True and the fetched job's name right
after the fetch and, the recorder having succeeded, returns nil; if it reports
"error", the loop returns the error "AnsibleJob <namespace>/<name> exited with
an error". In neither case is the Failed condition's message returned. -/
theorem MonitorAnsibleJob_result_precedes_conditions {σ : Type} (c : Client σ)
    (curator : ClusterCurator) (ns name : String) (fuel : Nat) (s s1 : State σ)
    (jobResource jos result : Obj) (conditions : List Value)
    (hget : clientGet c Kind.AnsibleJob ns name s = (Except.ok jobResource, s1))
    (hstatus : index jobResource "status" = Value.obj jos)
    (hconds : index jos "conditions" = Value.arr conditions)
    (hresult : index jos "ansibleJobResult" = Value.obj result) :
    (∃ failed, Value.obj failed ∈ conditions ∧ index failed "reason" = Value.str "Failed") →
    (index result "status" = Value.str "successful" →
      (c.RecordCurrentStatusCondition s1.world curator.Namespace "current-ansiblejob"
        ConditionStatus.True (GetName jobResource)).1 = none →
      monitorLoop c curator ns name (fuel + 1) s =
        (Res.ret none,
          { world := (c.RecordCurrentStatusCondition s1.world curator.Namespace
              "current-ansiblejob" ConditionStatus.True (GetName jobResource)).2,
            log := s.log ++ [Event.get Kind.AnsibleJob ns name,
              Event.record curator.Namespace "current-ansiblejob" ConditionStatus.True
                (GetName jobResource)] })) ∧
    (index result "status" = Value.str "error" →
      monitorLoop c curator ns name (fuel + 1) s =
        (Res.ret (some ("AnsibleJob " ++ ns ++ "/" ++ name ++ " exited with an error")),
          { world := s1.world, log := s.log ++ [Event.get Kind.AnsibleJob ns name] })) := by
  intro _
  have hnil : isNil (index jos "conditions") = false := by rw [hconds]; rfl
  have hlog := clientGet_log c _ ns name s s1 _ hget
  constructor
  · intro hok hrec
    rw [monitorLoop_poll_successful c curator ns name fuel s s1 jobResource hget
      (inspectJob_result_successful ns name jobResource jos result hstatus hnil hresult hok)]
    simp only [recordCurrentStatusCondition, hlog, List.append_assoc, List.singleton_append]
    rw [hrec]
  · intro herr
    rw [monitorLoop_poll_error c curator ns name fuel s s1 jobResource _ hget
      (inspectJob_result_error ns name jobResource jos result hstatus hnil hresult herr)]
    have : s1 = { world := s1.world, log := s.log ++ [Event.get Kind.AnsibleJob ns name] } := by
      cases s1
      simp only [State.mk.injEq, true_and]
      exact hlog
    rw [← this]

/-- Instance of `MonitorAnsibleJob_result_precedes_conditions`: the status holds
a Failed condition with the message "playbook failed" and reports
`successful`, respectively `error`. -/
theorem MonitorAnsibleJob_result_precedes_conditions_witness :
    monitorLoop (scriptClient none []) plainCurator "c1" "job-a" 1
        (scriptOf [] [Except.ok (fetchedJob "c1" "job-a" statusFailedButSuccessful)]).start =
      (Res.ret none,
        { world := scriptOf [] [],
          log := [Event.get Kind.AnsibleJob "c1" "job-a",
            Event.record "c1" "current-ansiblejob" ConditionStatus.True "job-a"] }) ∧
    monitorLoop (scriptClient none []) plainCurator "c1" "job-a" 1
        (scriptOf [] [Except.ok (fetchedJob "c1" "job-a" statusFailedAndError)]).start =
      (Res.ret (some ("AnsibleJob " ++ "c1" ++ "/" ++ "job-a" ++ " exited with an error")),
        { world := scriptOf [] [], log := [Event.get Kind.AnsibleJob "c1" "job-a"] }) :=
  ⟨(MonitorAnsibleJob_result_precedes_conditions (scriptClient none []) plainCurator "c1"
      "job-a" 0
      (scriptOf [] [Except.ok (fetchedJob "c1" "job-a" statusFailedButSuccessful)]).start
      { world := scriptOf [] [], log := [Event.get Kind.AnsibleJob "c1" "job-a"] }
      (fetchedJob "c1" "job-a" statusFailedButSuccessful)
      [("conditions", Value.arr
          [Value.obj [("reason", Value.str "Failed"),
            ("message", Value.str "playbook failed")]]),
        ("ansibleJobResult", Value.obj [("status", Value.str "successful")])]
      [("status", Value.str "successful")]
      [Value.obj [("reason", Value.str "Failed"), ("message", Value.str "playbook failed")]]
      rfl rfl rfl rfl
      ⟨[("reason", Value.str "Failed"), ("message", Value.str "playbook failed")],
        List.mem_singleton.mpr rfl, rfl⟩).1 rfl rfl,
   (MonitorAnsibleJob_result_precedes_conditions (scriptClient none []) plainCurator "c1"
      "job-a" 0
      (scriptOf [] [Except.ok (fetchedJob "c1" "job-a" statusFailedAndError)]).start
      { world := scriptOf [] [], log := [Event.get Kind.AnsibleJob "c1" "job-a"] }
      (fetchedJob "c1" "job-a" statusFailedAndError)
      [("conditions", Value.arr
          [Value.obj [("reason", Value.str "Failed"),
            ("message", Value.str "playbook failed")]]),
        ("ansibleJobResult", Value.obj [("status", Value.str "error")])]
      [("status", Value.str "error")]
      [Value.obj [("reason", Value.str "Failed"), ("message", Value.str "playbook failed")]]
      rfl rfl rfl rfl
      ⟨[("reason", Value.str "Failed"), ("message", Value.str "playbook failed")],
        List.mem_singleton.mpr rfl, rfl⟩).2 rfl⟩

/-! ## `FindAnsibleTemplateNamefromCurator` (C18) -/

/-- C18: for non-nil hooks, `FindAnsibleTemplateNamefromCurator` selects the
posthooks when the job type is "posthook" and the prehooks for every other
value of the job type, which it does not validate; it returns the selected
list unchanged with a nil error when the list is non-empty, and a nil list
with the error "Missing <jobType> in curator kind " when it is empty. For nil
hooks it halts through `CheckError` with "No Ansible job hooks found" instead
of returning. An empty hook list is thus an error here, while `Job`, for a
valid job type and a supported curation, returns nil on an empty list. -/
theorem FindAnsibleTemplateNamefromCurator_selects (hooks : Hooks) (jobType : String) :
    (jobType = "posthook" → hooks.Posthook ≠ [] →
      FindAnsibleTemplateNamefromCurator (some hooks) jobType =
        Res.ret (Except.ok hooks.Posthook)) ∧
    (jobType = "posthook" → hooks.Posthook = [] →
      FindAnsibleTemplateNamefromCurator (some hooks) jobType =
        Res.ret (Except.error ("Missing " ++ jobType ++ " in curator kind "))) ∧
    (jobType ≠ "posthook" → hooks.Prehook ≠ [] →
      FindAnsibleTemplateNamefromCurator (some hooks) jobType =
        Res.ret (Except.ok hooks.Prehook)) ∧
    (jobType ≠ "posthook" → hooks.Prehook = [] →
      FindAnsibleTemplateNamefromCurator (some hooks) jobType =
        Res.ret (Except.error ("Missing " ++ jobType ++ " in curator kind "))) ∧
    FindAnsibleTemplateNamefromCurator none jobType =
      Res.panic "No Ansible job hooks found" ∧
    (∀ {σ : Type} (c : Client σ) (fuel : Nat) (curator : ClusterCurator) (s : State σ),
      (jobType = "prehook" ∨ jobType = "posthook") →
      (curator.Spec.DesiredCuration = "install" ∨ curator.Spec.DesiredCuration = "upgrade") →
      hooksToRun curator jobType = [] →
      Job c fuel jobType curator s = (Res.ret none, s)) := by
  refine ⟨?_, ?_, ?_, ?_, rfl, ?_⟩
  · intro hjt hne
    have hp : jobType = POSTHOOK := hjt
    have hlen : ¬ hooks.Posthook.length = 0 := fun h => hne (List.length_eq_zero.mp h)
    simp only [FindAnsibleTemplateNamefromCurator, if_pos hp, if_neg hlen]
  · intro hjt hnil
    have hp : jobType = POSTHOOK := hjt
    simp only [FindAnsibleTemplateNamefromCurator, if_pos hp, hnil, List.length_nil, if_true]
  · intro hjt hne
    have hp : ¬ jobType = POSTHOOK := hjt
    have hlen : ¬ hooks.Prehook.length = 0 := fun h => hne (List.length_eq_zero.mp h)
    simp only [FindAnsibleTemplateNamefromCurator, if_neg hp, if_neg hlen]
  · intro hjt hnil
    have hp : ¬ jobType = POSTHOOK := hjt
    simp only [FindAnsibleTemplateNamefromCurator, if_neg hp, hnil, List.length_nil, if_true]
  · intro σ c fuel curator s hjt hcur hempty
    rw [Job_eq_runHooks c fuel jobType curator s hjt hcur, hempty, runHooks_nil]

/-- Instance of `FindAnsibleTemplateNamefromCurator_selects`: hooks with two
prehooks and no posthook; the unvalidated job type "pre" selects the prehooks,
"posthook" finds an empty list. -/
theorem FindAnsibleTemplateNamefromCurator_selects_witness :
    FindAnsibleTemplateNamefromCurator (some prehooksOnly) "pre" =
      Res.ret (Except.ok [plainHook "A", plainHook "B"]) ∧
    FindAnsibleTemplateNamefromCurator (some prehooksOnly) "posthook" =
      Res.ret (Except.error ("Missing " ++ "posthook" ++ " in curator kind ")) :=
  ⟨(FindAnsibleTemplateNamefromCurator_selects prehooksOnly "pre").2.2.1 (by decide)
      (by decide),
   (FindAnsibleTemplateNamefromCurator_selects prehooksOnly "posthook").2.1 rfl rfl⟩

end Curator
